import Mathlib

/-!
# pulsar-monitor: cluster health evaluation and the metric handle cache

A shallow embedding of `src/cfg/cluster-monitor.go` and `src/metrics.go`.

* Go strings are Lean strings, Go `int` and `time.Duration` values are integers
  (no arithmetic that could overflow is performed on them by the embedded code).
* `float64` is an abstract type `F`; the conversion `float64(n)` of an integer is a
  function `float64 : Int → F` supplied by the environment.
* The two package-level maps, the package-level `clusterHealth` variable and the calls
  made to external collaborators (metrics backend, alert transport, logger) are carried
  in an explicit `World`; every external call appends one `Event` to `World.trace`.
* The embedding is sequential: the `sync.RWMutex` of `ClusterHealth` is acquired and
  released inside `Get` and `Set`, so it is free before and after each call and is
  not part of the state.
-/

namespace PulsarMonitor

/-! ## Data model -/

/-- The fields of `prometheus.GaugeOpts` that the source sets. -/
structure GaugeOpts where
  Namespace : String
  Subsystem : String
  Name : String
  Help : String
deriving DecidableEq, Repr

/-- One entry of `SummaryOpts.Objectives`: the quantile rank and its allowed error,
written as exact decimal fractions (`0.5: 0.05` is `⟨5, 10, 5, 100⟩`). -/
structure Objective where
  rankNum : Nat
  rankDen : Nat
  errNum : Nat
  errDen : Nat
deriving DecidableEq, Repr

/-- The fields of `prometheus.SummaryOpts` that `PromLatencySum` sets. -/
structure SummaryOpts where
  Namespace : String
  Subsystem : String
  Name : String
  Help : String
  Objectives : List Objective
  MaxAge : Int
  AgeBuckets : Nat
  BufCap : Nat
deriving DecidableEq, Repr

/-- A `*prometheus.GaugeVec` handle. `id` stands for the pointer identity of the
object returned by `prometheus.NewGaugeVec`. -/
structure GaugeVec where
  id : Nat
  opts : GaugeOpts
  labelNames : List String
deriving DecidableEq, Repr

/-- A `*prometheus.SummaryVec` handle. `id` stands for the pointer identity of the
object returned by `prometheus.NewSummaryVec`. -/
structure SummaryVec where
  id : Nat
  opts : SummaryOpts
  labelNames : List String
deriving DecidableEq, Repr

/-- A Go `error` value. -/
structure GoError where
  msg : String
deriving DecidableEq, Repr

/-- The type `k8s.ClusterStatusCode` is an integer type. -/
abbrev ClusterStatusCode := Int

/-- The fields of `k8s.ClusterStatus` read by `EvaluateClusterHealth`. -/
structure ClusterStatus where
  Status : ClusterStatusCode
  ZookeeperOfflineInstances : Int
  BookkeeperOfflineInstances : Int
  BrokerOfflineInstances : Int
  ProxyOfflineInstances : Int
deriving DecidableEq, Repr

/-- The struct `ClusterHealth` (its embedded `sync.RWMutex` is not part of the
sequential state). -/
structure ClusterHealth where
  Status : ClusterStatusCode
  MissingBrokers : Int
deriving DecidableEq, Repr

/-- Calls made to external collaborators, in the order the source makes them. -/
inductive Event (F P : Type) where
  /-- The call `prometheus.Register(newMetric)`; its result is discarded by the source. -/
  | Register (c : GaugeVec)
  /-- The call `prometheus.MustRegister(newSummary)` that returned normally. -/
  | MustRegister (c : SummaryVec)
  /-- The call `g.WithLabelValues(labelValue).Set(v)`. -/
  | GaugeSet (g : GaugeVec) (labelValue : String) (v : F)
  /-- The call `s.WithLabelValues(labelValue).Observe(v)`. -/
  | SummaryObserve (s : SummaryVec) (labelValue : String) (v : F)
  /-- The call `VerboseAlert(component, message, silence)`. -/
  | VerboseAlert (component : String) (message : String) (silence : Int)
  /-- The call `ReportIncident(component, aliasName, msg, desc, policy)`. -/
  | ReportIncident (component : String) (aliasName : String) (msg : String) (desc : String)
      (policy : P)
  /-- The call `ClearIncident(component)`. -/
  | ClearIncident (component : String)
  /-- The call `log.Infof("k8s cluster status %v", status)`. -/
  | LogInfof (status : ClusterStatus)
  /-- The call `log.Errorf("k8s monitoring failed to watchpods error: %v", err)`. -/
  | LogErrorf (err : GoError)
deriving DecidableEq, Repr

/-- Package-level state and the log of external calls. -/
structure World (F P : Type) where
  /-- The variable `clusterHealth`. -/
  clusterHealth : ClusterHealth
  /-- The map `metrics`; `List.lookup` is the map read, consing an entry is the write. -/
  metrics : List (String × GaugeVec)
  /-- The map `summaries`. -/
  summaries : List (String × SummaryVec)
  /-- Allocation counter giving each new handle its identity. -/
  nextId : Nat
  /-- External calls made so far, oldest first. -/
  trace : List (Event F P)
deriving DecidableEq

/-- The state at process start: `clusterHealth = ClusterHealth{}`, both maps empty. -/
def World.init (F P : Type) : World F P :=
  { clusterHealth := ⟨0, 0⟩, metrics := [], summaries := [], nextId := 0, trace := [] }

/-! ## `time` constants (nanoseconds) -/

def Millisecond : Int := 1000000

def Second : Int := 1000 * Millisecond

def Minute : Int := 60 * Second

/-- The constant `clusterMonInterval`. -/
def clusterMonInterval : Int := 10 * Second

/-! ## `src/metrics.go` -/

def funcTopicSubsystem : String := "func_topic"

def pubSubSubsystem : String := "pubsub"

def websocketSubsystem : String := "websocket"

def TenantsGaugeOpt : GaugeOpts :=
  { Namespace := "pulsar", Subsystem := "tenant", Name := "size",
    Help := "Plusar rest api tenant counts" }

def SiteLatencyGaugeOpt : GaugeOpts :=
  { Namespace := "kafkaesque", Subsystem := "webendpoint", Name := "latency_ms",
    Help := "kafkaesque website endpoint monitor and latency in ms" }

def MsgLatencyGaugeOpt (typeName desc : String) : GaugeOpts :=
  { Namespace := "pulsar", Subsystem := typeName, Name := "latency_ms", Help := desc }

def FuncLatencyGaugeOpt : GaugeOpts :=
  { Namespace := "pulsar", Subsystem := "function", Name := "latency_ms",
    Help := "Plusar message latency in ms" }

/-- The key `fmt.Sprintf("%s-%s-%s", opt.Namespace, opt.Subsystem, opt.Name)`. -/
def getMetricKey (opt : GaugeOpts) : String :=
  opt.Namespace ++ "-" ++ opt.Subsystem ++ "-" ++ opt.Name

/-- The library function `strings.HasPrefix`. -/
def HasPrefix (s pre : String) : Bool :=
  pre.data.isPrefixOf s.data

def GetGaugeType (nameType : String) : GaugeOpts :=
  if nameType = funcTopicSubsystem ∨ HasPrefix nameType "func_topic" = true then
    MsgLatencyGaugeOpt funcTopicSubsystem "Plusar function input output topic latency in ms"
  else if nameType = websocketSubsystem then
    MsgLatencyGaugeOpt websocketSubsystem "Plusar websocket pubsub topic latency in ms"
  else
    MsgLatencyGaugeOpt pubSubSubsystem "Plusar pubsub message latency in ms"

/-- Append external calls to the trace. -/
def World.emit {F P : Type} (w : World F P) (es : List (Event F P)) : World F P :=
  { w with trace := w.trace ++ es }

def PromGauge {F P : Type} (opt : GaugeOpts) (cluster : String) (num : F) (w : World F P) :
    World F P :=
  let key := getMetricKey opt
  match w.metrics.lookup key with
  | some promMetric => w.emit [Event.GaugeSet promMetric cluster num]
  | none =>
    let newMetric : GaugeVec := { id := w.nextId, opts := opt, labelNames := ["device"] }
    { w with
      nextId := w.nextId + 1
      trace := w.trace ++ [Event.Register newMetric, Event.GaugeSet newMetric cluster num]
      metrics := (key, newMetric) :: w.metrics }

def PromGaugeInt {F P : Type} (float64 : Int → F) (opt : GaugeOpts) (cluster : String)
    (num : Int) (w : World F P) : World F P :=
  PromGauge opt cluster (float64 num) w

/-- The options literal built for the companion summary in `PromLatencySum`. -/
def summaryOptsOf (opt : GaugeOpts) : SummaryOpts :=
  { Namespace := opt.Namespace
    Subsystem := opt.Subsystem
    Name := opt.Name ++ "_hst"
    Help := opt.Help
    Objectives := [⟨5, 10, 5, 100⟩, ⟨9, 10, 1, 100⟩, ⟨99, 100, 1, 1000⟩]
    MaxAge := 30 * Minute
    AgeBuckets := 3
    BufCap := 500 }

/-- The function `PromLatencySum`. `mustRegisterOk` is the metrics backend: given the
calls made so far and the summary being registered it tells whether
`prometheus.MustRegister` returns; when it does not, the call panics and the result is
`none`. -/
def PromLatencySum {F P : Type} (float64 : Int → F)
    (mustRegisterOk : List (Event F P) → SummaryVec → Bool)
    (opt : GaugeOpts) (cluster : String) (latency : Int) (w : World F P) :
    Option (World F P) :=
  let key := getMetricKey opt
  let ms := float64 (Int.tdiv latency Millisecond)
  let w1 : World F P :=
    match w.metrics.lookup key with
    | some promMetric => w.emit [Event.GaugeSet promMetric cluster ms]
    | none =>
      let newMetric : GaugeVec := { id := w.nextId, opts := opt, labelNames := ["device"] }
      { w with
        nextId := w.nextId + 1
        trace := w.trace ++ [Event.Register newMetric, Event.GaugeSet newMetric cluster ms]
        metrics := (key, newMetric) :: w.metrics }
  match w1.summaries.lookup key with
  | some summary => some (w1.emit [Event.SummaryObserve summary cluster ms])
  | none =>
    let newSummary : SummaryVec :=
      { id := w1.nextId, opts := summaryOptsOf opt, labelNames := ["device"] }
    if mustRegisterOk w1.trace newSummary then
      some { w1 with
        nextId := w1.nextId + 1
        trace := w1.trace ++
          [Event.MustRegister newSummary, Event.SummaryObserve newSummary cluster ms]
        summaries := (key, newSummary) :: w1.summaries }
    else
      none

/-! ## `src/cfg/cluster-monitor.go` -/

/-- The method `ClusterHealth.Get`. -/
def ClusterHealth.Get (h : ClusterHealth) : ClusterStatusCode × Int :=
  (h.Status, h.MissingBrokers)

/-- The method `ClusterHealth.Set`. -/
def ClusterHealth.Set (h : ClusterHealth) (status : ClusterStatusCode) (offlineBrokers : Int) :
    ClusterHealth :=
  let h1 := { h with Status := status }
  { h1 with MissingBrokers := offlineBrokers }

/-- The part of `K8sConfig` read by the source. -/
structure K8sCfg (P : Type) where
  Enabled : Bool
  AlertPolicy : P

/-- The part of the value returned by `GetConfig()` read by the source. -/
structure Configuration (P : Type) where
  Name : String
  K8sConfig : K8sCfg P

/-- Declarations used by `EvaluateClusterHealth` whose definitions are outside the
embedded files: the configuration, the constants of package `k8s`, the subsystem
constants, `GetOfflinePodsCounter`, and the integer to `float64` conversion. -/
structure Env (F P : Type) where
  cfg : Configuration P
  OK : ClusterStatusCode
  TotalDown : ClusterStatusCode
  DefaultPulsarNamespace : String
  k8sZookeeperSubsystem : String
  k8sBookkeeperSubsystem : String
  k8sBrokerSubsystem : String
  k8sProxySubsystem : String
  GetOfflinePodsCounter : String → GaugeOpts
  float64 : Int → F

/-- The outcome of the three calls one evaluation makes on the `*k8s.Client`. -/
structure Client where
  UpdateReplicas : Option GoError
  WatchPods : String → Option GoError
  EvalHealth : String × ClusterStatus

def EvaluateClusterHealth {F P : Type} (env : Env F P) (client : Client) (w : World F P) :
    World F P × Option GoError :=
  let k8sCfg := env.cfg.K8sConfig
  let cluster := env.cfg.Name ++ "-in-cluster"
  match client.UpdateReplicas with
  | some err => (w, some err)
  | none =>
    match client.WatchPods env.DefaultPulsarNamespace with
    | some err => (w, some err)
    | none =>
      let desc := client.EvalHealth.1
      let status := client.EvalHealth.2
      let w1 := { w with
        clusterHealth := w.clusterHealth.Set status.Status status.BrokerOfflineInstances }
      let w2 := PromGaugeInt env.float64 (env.GetOfflinePodsCounter env.k8sZookeeperSubsystem)
        cluster status.ZookeeperOfflineInstances w1
      let w3 := PromGaugeInt env.float64 (env.GetOfflinePodsCounter env.k8sBookkeeperSubsystem)
        cluster status.BookkeeperOfflineInstances w2
      let w4 := PromGaugeInt env.float64 (env.GetOfflinePodsCounter env.k8sBrokerSubsystem)
        cluster status.BrokerOfflineInstances w3
      let w5 := PromGaugeInt env.float64 (env.GetOfflinePodsCounter env.k8sProxySubsystem)
        cluster status.ProxyOfflineInstances w4
      let w6 :=
        if status.Status ≠ env.OK then
          let errMsg := "cluster " ++ cluster ++
            ", k8s pulsar cluster status is unhealthy, error message " ++ desc
          if status.Status = env.TotalDown then
            w5.emit [Event.VerboseAlert cluster errMsg (3 * Minute),
              Event.ReportIncident cluster cluster
                "kubernete cluster is down, reported by pulsar-monitor" errMsg
                k8sCfg.AlertPolicy]
          else w5
        else
          w5.emit [Event.ClearIncident cluster]
      (w6.emit [Event.LogInfof status], none)

/-- The body of the ticker loop of `MonitorK8sPulsarCluster`, run for one tick per
element of `ticks`. -/
def monitorLoop {F P : Type} (env : Env F P) : List Client → World F P → World F P
  | [], w => w
  | client :: rest, w =>
    match EvaluateClusterHealth env client w with
    | (w1, some err) => monitorLoop env rest (w1.emit [Event.LogErrorf err])
    | (w1, none) => monitorLoop env rest w1

/-! ## Observation helpers -/

/-- The events appended to the trace between `w` and a later world `w1`. -/
def emitted {F P : Type} (w w1 : World F P) : List (Event F P) :=
  w1.trace.drop w.trace.length

/-- The gauge observations among a list of events: handle, label value, value. -/
def gaugeWrites {F P : Type} (es : List (Event F P)) : List (GaugeVec × String × F) :=
  es.filterMap fun e =>
    match e with
    | Event.GaugeSet g l v => some (g, l, v)
    | _ => none

/-- The summary observations among a list of events: handle, label value, value. -/
def summaryWrites {F P : Type} (es : List (Event F P)) : List (SummaryVec × String × F) :=
  es.filterMap fun e =>
    match e with
    | Event.SummaryObserve s l v => some (s, l, v)
    | _ => none

/-- The gauge vectors registered with the backend among a list of events. -/
def gaugeRegistrations {F P : Type} (es : List (Event F P)) : List GaugeVec :=
  es.filterMap fun e =>
    match e with
    | Event.Register g => some g
    | _ => none

/-- The summary vectors registered with the backend among a list of events. -/
def summaryRegistrations {F P : Type} (es : List (Event F P)) : List SummaryVec :=
  es.filterMap fun e =>
    match e with
    | Event.MustRegister s => some s
    | _ => none

/-- The calls to `VerboseAlert`, `ReportIncident` and `ClearIncident` among a list of
events. -/
def alertCalls {F P : Type} (es : List (Event F P)) : List (Event F P) :=
  es.filter fun e =>
    match e with
    | Event.VerboseAlert _ _ _ => true
    | Event.ReportIncident _ _ _ _ _ => true
    | Event.ClearIncident _ => true
    | _ => false

/-- The scope labels of the `ReportIncident` calls among a list of events. -/
def reportedIncidents {F P : Type} (es : List (Event F P)) : List String :=
  es.filterMap fun e =>
    match e with
    | Event.ReportIncident c _ _ _ _ => some c
    | _ => none

/-! ## Sequences of registry calls -/

/-- One call of a write-path function of `src/metrics.go`. -/
inductive Call (F : Type) where
  /-- The call `PromGauge(opt, cluster, num)`. -/
  | gauge (opt : GaugeOpts) (cluster : String) (num : F)
  /-- The call `PromGaugeInt(opt, cluster, num)`. -/
  | gaugeInt (opt : GaugeOpts) (cluster : String) (num : Int)
  /-- The call `PromLatencySum(opt, cluster, latency)`. -/
  | latencySum (opt : GaugeOpts) (cluster : String) (latency : Int)
deriving DecidableEq, Repr

/-- The description passed to the call. -/
def Call.opt {F : Type} : Call F → GaugeOpts
  | Call.gauge opt _ _ => opt
  | Call.gaugeInt opt _ _ => opt
  | Call.latencySum opt _ _ => opt

/-- The label value passed to the call. -/
def Call.cluster {F : Type} : Call F → String
  | Call.gauge _ cluster _ => cluster
  | Call.gaugeInt _ cluster _ => cluster
  | Call.latencySum _ cluster _ => cluster

/-- The metric key of the call. -/
def Call.key {F : Type} (c : Call F) : String :=
  getMetricKey c.opt

/-- Whether the call is a `PromLatencySum` call. -/
def Call.isLatency {F : Type} : Call F → Bool
  | Call.latencySum _ _ _ => true
  | _ => false

/-- The value the call asks to be written: `num`, `float64(num)`, or
`float64(latency / time.Millisecond)`. -/
def Call.value {F : Type} (float64 : Int → F) : Call F → F
  | Call.gauge _ _ num => num
  | Call.gaugeInt _ _ num => float64 num
  | Call.latencySum _ _ latency => float64 (Int.tdiv latency Millisecond)

/-- Execute one call; `none` when it panics. -/
def Call.run {F P : Type} (float64 : Int → F)
    (mustRegisterOk : List (Event F P) → SummaryVec → Bool) :
    Call F → World F P → Option (World F P)
  | Call.gauge opt cluster num, w => some (PromGauge opt cluster num w)
  | Call.gaugeInt opt cluster num, w => some (PromGaugeInt float64 opt cluster num w)
  | Call.latencySum opt cluster latency, w =>
    PromLatencySum float64 mustRegisterOk opt cluster latency w

/-- Execute calls one after the other; `none` as soon as one panics. -/
def runCalls {F P : Type} (float64 : Int → F)
    (mustRegisterOk : List (Event F P) → SummaryVec → Bool) :
    List (Call F) → World F P → Option (World F P)
  | [], w => some w
  | c :: cs, w =>
    match c.run float64 mustRegisterOk w with
    | none => none
    | some w1 => runCalls float64 mustRegisterOk cs w1

/-- The trace after the first `n` calls of `calls`, started from the initial world. -/
def traceAfter {F P : Type} (float64 : Int → F)
    (mustRegisterOk : List (Event F P) → SummaryVec → Bool) (calls : List (Call F)) (n : Nat) :
    List (Event F P) :=
  match runCalls float64 mustRegisterOk (calls.take n) (World.init F P) with
  | some w => w.trace
  | none => []

/-- The external calls made by the call at position `i` of `calls`. -/
def eventsOfCall {F P : Type} (float64 : Int → F)
    (mustRegisterOk : List (Event F P) → SummaryVec → Bool) (calls : List (Call F)) (i : Nat) :
    List (Event F P) :=
  (traceAfter float64 mustRegisterOk calls (i + 1)).drop
    (traceAfter float64 mustRegisterOk calls i).length

/-- Invariant tying the two handle maps and the registrations in the trace to the
calls `hist` executed so far. -/
def CacheInv {F P : Type} (hist : List (Call F)) (w : World F P) : Prop :=
  (w.metrics.map Prod.fst).Nodup ∧
  (∀ k, k ∈ w.metrics.map Prod.fst ↔ k ∈ hist.map Call.key) ∧
  (gaugeRegistrations w.trace).length = w.metrics.length ∧
  (w.summaries.map Prod.fst).Nodup ∧
  (∀ k, k ∈ w.summaries.map Prod.fst ↔
    k ∈ (hist.filter fun c => c.isLatency).map Call.key) ∧
  (summaryRegistrations w.trace).length = w.summaries.length

/-! ## Alert and incident transport -/

/-- Modelled from the spec: what the alert and incident transport does with a call.
The functions `VerboseAlert`, `ReportIncident` and `ClearIncident` are called by
`EvaluateClusterHealth` but defined outside the embedded files. -/
inductive Transition where
  /-- A scope went from no incident to incident open. -/
  | IncidentOpened (scope : String)
  /-- An already open incident was refreshed. -/
  | IncidentRefreshed (scope : String)
  /-- A scope went from incident open to no incident. -/
  | IncidentCleared (scope : String)
  /-- A verbose alert was sent. -/
  | Notified (scope : String) (message : String)
  /-- A verbose alert fell inside the suppression window and was not sent. -/
  | Suppressed (scope : String)
deriving DecidableEq, Repr

/-- Modelled from the spec: the state of the alert and incident transport, which is
outside the embedded files: the scopes whose incident is open, the time of the last
verbose alert sent per scope, and the transitions made so far, oldest first. -/
structure Transport where
  openIncidents : List String
  lastNotified : List (String × Int)
  log : List Transition
deriving DecidableEq, Repr

/-- Modelled from the spec: the initial state of the transport, which is outside the
embedded files: every scope is in state no-incident and no alert was sent. -/
def Transport.init : Transport :=
  { openIncidents := [], lastNotified := [], log := [] }

/-- Modelled from the spec: the effect of one call on the transport at time `now`
(`VerboseAlert`, `ReportIncident` and `ClearIncident` are outside the embedded files).
A verbose alert is not re-sent for the same scope before the window given in the call
has passed since the last one sent; `ReportIncident` opens the incident of the scope
or refreshes it when already open; `ClearIncident` clears an open incident and is a
no-op otherwise. Other events do not reach the transport. -/
def deliver {F P : Type} (now : Int) (t : Transport) : Event F P → Transport
  | Event.VerboseAlert scope message window =>
    match t.lastNotified.lookup scope with
    | some last =>
      if now - last < window then
        { t with log := t.log ++ [Transition.Suppressed scope] }
      else
        { t with
          lastNotified := (scope, now) :: t.lastNotified
          log := t.log ++ [Transition.Notified scope message] }
    | none =>
      { t with
        lastNotified := (scope, now) :: t.lastNotified
        log := t.log ++ [Transition.Notified scope message] }
  | Event.ReportIncident scope _ _ _ _ =>
    if scope ∈ t.openIncidents then
      { t with log := t.log ++ [Transition.IncidentRefreshed scope] }
    else
      { t with
        openIncidents := scope :: t.openIncidents
        log := t.log ++ [Transition.IncidentOpened scope] }
  | Event.ClearIncident scope =>
    if scope ∈ t.openIncidents then
      { t with
        openIncidents := t.openIncidents.filter fun s => s != scope
        log := t.log ++ [Transition.IncidentCleared scope] }
    else t
  | _ => t

/-- Deliver a list of calls, all made at time `now`. -/
def deliverAll {F P : Type} (now : Int) (t : Transport) (es : List (Event F P)) : Transport :=
  es.foldl (deliver now) t

/-- The ticker loop of `MonitorK8sPulsarCluster` together with the transport: each tick
comes with the time at which it fires, and the calls it makes reach the transport at
that time. -/
def monitorLoopAt {F P : Type} (env : Env F P) :
    List (Int × Client) → World F P × Transport → World F P × Transport
  | [], st => st
  | (now, client) :: rest, (w, t) =>
    match EvaluateClusterHealth env client w with
    | (w1, some err) =>
      monitorLoopAt env rest (w1.emit [Event.LogErrorf err], deliverAll now t (emitted w w1))
    | (w1, none) => monitorLoopAt env rest (w1, deliverAll now t (emitted w w1))

/-- The scopes whose incident was opened, in order. -/
def incidentsOpened (log : List Transition) : List String :=
  log.filterMap fun x =>
    match x with
    | Transition.IncidentOpened s => some s
    | _ => none

/-- The scopes whose incident was cleared, in order. -/
def incidentsCleared (log : List Transition) : List String :=
  log.filterMap fun x =>
    match x with
    | Transition.IncidentCleared s => some s
    | _ => none

/-- The scopes for which a verbose alert was sent, in order. -/
def alertsSent (log : List Transition) : List String :=
  log.filterMap fun x =>
    match x with
    | Transition.Notified s _ => some s
    | _ => none

/-! ## Concrete inputs -/

/-- A configuration with status constants `OK = 1`, `TotalDown = 0`. -/
def sampleEnv : Env Int Unit :=
  { cfg := { Name := "east", K8sConfig := { Enabled := true, AlertPolicy := () } }
    OK := 1
    TotalDown := 0
    DefaultPulsarNamespace := "pulsar"
    k8sZookeeperSubsystem := "zookeeper"
    k8sBookkeeperSubsystem := "bookkeeper"
    k8sBrokerSubsystem := "broker"
    k8sProxySubsystem := "proxy"
    GetOfflinePodsCounter := fun s =>
      { Namespace := "pulsar", Subsystem := s, Name := "offline_pods", Help := "offline pods" }
    float64 := fun n => n }

/-- A client whose refresh calls succeed and whose verdict has the given status. -/
def sampleClient (status : ClusterStatusCode) : Client :=
  { UpdateReplicas := none
    WatchPods := fun _ => none
    EvalHealth := ("brokers offline", ⟨status, 1, 2, 3, 4⟩) }

/-- A client whose first refresh call fails. -/
def failingClient : Client :=
  { UpdateReplicas := some ⟨"connection refused"⟩
    WatchPods := fun _ => none
    EvalHealth := ("", ⟨0, 0, 0, 0, 0⟩) }

/-- A short mixed sequence of registry calls: two metric keys, one of them used by both
a gauge call and two latency calls. -/
def sampleCalls : List (Call Int) :=
  [Call.gaugeInt TenantsGaugeOpt "east" 7,
   Call.latencySum (GetGaugeType "websocket") "east" 2500000,
   Call.gauge TenantsGaugeOpt "west" 9,
   Call.latencySum (GetGaugeType "websocket") "west" 1000000]

/-- The world reached by `sampleCalls` when the backend accepts every registration. -/
def sampleCallsWorld : World Int Unit :=
  { clusterHealth := ⟨0, 0⟩
    metrics := [(getMetricKey (GetGaugeType "websocket"), ⟨1, GetGaugeType "websocket", ["device"]⟩),
      (getMetricKey TenantsGaugeOpt, ⟨0, TenantsGaugeOpt, ["device"]⟩)]
    summaries := [(getMetricKey (GetGaugeType "websocket"),
      ⟨2, summaryOptsOf (GetGaugeType "websocket"), ["device"]⟩)]
    nextId := 3
    trace := [Event.Register ⟨0, TenantsGaugeOpt, ["device"]⟩,
      Event.GaugeSet ⟨0, TenantsGaugeOpt, ["device"]⟩ "east" 7,
      Event.Register ⟨1, GetGaugeType "websocket", ["device"]⟩,
      Event.GaugeSet ⟨1, GetGaugeType "websocket", ["device"]⟩ "east" 2,
      Event.MustRegister ⟨2, summaryOptsOf (GetGaugeType "websocket"), ["device"]⟩,
      Event.SummaryObserve ⟨2, summaryOptsOf (GetGaugeType "websocket"), ["device"]⟩ "east" 2,
      Event.GaugeSet ⟨0, TenantsGaugeOpt, ["device"]⟩ "west" 9,
      Event.GaugeSet ⟨1, GetGaugeType "websocket", ["device"]⟩ "west" 1,
      Event.SummaryObserve ⟨2, summaryOptsOf (GetGaugeType "websocket"), ["device"]⟩ "west" 1] }

/-- Four ticks, ten seconds apart, with verdict statuses OK, TotalDown, TotalDown, OK. -/
def sampleTicks : List (Int × Client) :=
  [(0, sampleClient 1), (clusterMonInterval, sampleClient 0),
   (2 * clusterMonInterval, sampleClient 0), (3 * clusterMonInterval, sampleClient 1)]

/-! ## Theorems -/

/-! ### Health state -/

/-- C9: for every prior health state, every status code and every integer `n`
(negative ones included), `Set(status, n)` followed by `Get()` returns exactly
`(status, n)`: `Set` replaces both fields with its arguments without validation, so the
result does not depend on the prior state. `Get` only reads the two fields; it yields
no new state, so repeating it returns the same pair. -/
theorem ClusterHealth_Set_then_Get (h : ClusterHealth) (status : ClusterStatusCode) (n : Int) :
    (h.Set status n).Get = (status, n) ∧
    h.Set status n = { Status := status, MissingBrokers := n } ∧
    (h.Set status (-n)).Get = (status, -n) ∧
    ∀ h2 : ClusterHealth, (h2.Set status n).Get = (h.Set status n).Get := by
  refine ⟨rfl, rfl, rfl, fun _ => rfl⟩

/-! ### Metric key and classification -/

theorem getMetricKey_data (opt : GaugeOpts) :
    (getMetricKey opt).data =
      opt.Namespace.data ++ '-' :: (opt.Subsystem.data ++ '-' :: opt.Name.data) := by
  simp [getMetricKey, String.data_append]

theorem append_cons_unique {α : Type} (c : α) :
    ∀ (l1 l2 r1 r2 : List α), c ∉ l1 → c ∉ l2 → l1 ++ c :: r1 = l2 ++ c :: r2 →
      l1 = l2 ∧ r1 = r2
  | [], [], r1, r2, _, _, h => by simpa using h
  | [], b :: l2, r1, r2, _, h2, h => by
    simp only [List.nil_append, List.cons_append, List.cons.injEq] at h
    exact absurd (h.1 ▸ List.mem_cons_self _ _) h2
  | a :: l1, [], r1, r2, h1, _, h => by
    simp only [List.nil_append, List.cons_append, List.cons.injEq] at h
    exact absurd (h.1 ▸ List.mem_cons_self _ _) h1
  | a :: l1, b :: l2, r1, r2, h1, h2, h => by
    simp only [List.cons_append, List.cons.injEq] at h
    have ih := append_cons_unique c l1 l2 r1 r2
      (fun hm => h1 (List.mem_cons_of_mem _ hm)) (fun hm => h2 (List.mem_cons_of_mem _ hm)) h.2
    exact ⟨by rw [h.1, ih.1], ih.2⟩

/-- C6 (as stated, refuted): two descriptions with different namespaces and different
subsystems have the same metric key, so equal keys do not imply equal triples. -/
theorem getMetricKey_not_injective :
    ¬ (getMetricKey ⟨"a-b", "c", "d", ""⟩ = getMetricKey ⟨"a", "b-c", "d", ""⟩ →
      (⟨"a-b", "c", "d", ""⟩ : GaugeOpts).Namespace =
          (⟨"a", "b-c", "d", ""⟩ : GaugeOpts).Namespace ∧
        (⟨"a-b", "c", "d", ""⟩ : GaugeOpts).Subsystem =
          (⟨"a", "b-c", "d", ""⟩ : GaugeOpts).Subsystem ∧
        (⟨"a-b", "c", "d", ""⟩ : GaugeOpts).Name =
          (⟨"a", "b-c", "d", ""⟩ : GaugeOpts).Name) := by
  decide

/-- C6 (amended): for descriptions whose namespace and subsystem contain no `-`
character, equal metric keys imply equal namespace, equal subsystem and equal name. -/
theorem getMetricKey_injective_of_no_hyphen (a b : GaugeOpts)
    (ha1 : '-' ∉ a.Namespace.data) (ha2 : '-' ∉ a.Subsystem.data)
    (hb1 : '-' ∉ b.Namespace.data) (hb2 : '-' ∉ b.Subsystem.data)
    (h : getMetricKey a = getMetricKey b) :
    a.Namespace = b.Namespace ∧ a.Subsystem = b.Subsystem ∧ a.Name = b.Name := by
  have hd : (getMetricKey a).data = (getMetricKey b).data := by rw [h]
  rw [getMetricKey_data, getMetricKey_data] at hd
  obtain ⟨h1, hrest⟩ := append_cons_unique '-' _ _ _ _ ha1 hb1 hd
  obtain ⟨h2, h3⟩ := append_cons_unique '-' _ _ _ _ ha2 hb2 hrest
  exact ⟨String.ext h1, String.ext h2, String.ext h3⟩

theorem getMetricKey_injective_of_no_hyphen_witness :
    '-' ∉ TenantsGaugeOpt.Namespace.data ∧ '-' ∉ TenantsGaugeOpt.Subsystem.data ∧
    getMetricKey TenantsGaugeOpt = getMetricKey { TenantsGaugeOpt with Help := "other" } ∧
    (TenantsGaugeOpt.Namespace =
        ({ TenantsGaugeOpt with Help := "other" } : GaugeOpts).Namespace ∧
      TenantsGaugeOpt.Subsystem =
        ({ TenantsGaugeOpt with Help := "other" } : GaugeOpts).Subsystem ∧
      TenantsGaugeOpt.Name = ({ TenantsGaugeOpt with Help := "other" } : GaugeOpts).Name) :=
  ⟨by decide, by decide, by decide,
    getMetricKey_injective_of_no_hyphen TenantsGaugeOpt { TenantsGaugeOpt with Help := "other" }
      (by decide) (by decide) (by decide) (by decide) (by decide)⟩

theorem HasPrefix_iff (s pre : String) :
    HasPrefix s pre = true ↔ ∃ t : String, s = pre ++ t := by
  unfold HasPrefix
  rw [List.isPrefixOf_iff_prefix]
  constructor
  · rintro ⟨t, ht⟩
    exact ⟨⟨t⟩, String.ext (by simp [String.data_append, ht])⟩
  · rintro ⟨t, rfl⟩
    exact ⟨t.data, by simp [String.data_append]⟩

/-- C7: for every string `s`, `GetGaugeType(s)` has namespace "pulsar" and name
"latency_ms"; its subsystem is "func_topic" exactly when `s` starts with "func_topic",
"websocket" exactly when `s` is "websocket", and "pubsub" in every other case; the
help text is the one fixed for that subsystem. -/
theorem GetGaugeType_classifies (s : String) :
    (GetGaugeType s).Namespace = "pulsar" ∧ (GetGaugeType s).Name = "latency_ms" ∧
    ((GetGaugeType s).Subsystem = "func_topic" ↔ ∃ t : String, s = "func_topic" ++ t) ∧
    ((GetGaugeType s).Subsystem = "websocket" ↔ s = "websocket") ∧
    ((GetGaugeType s).Subsystem = "pubsub" ↔
      (¬ ∃ t : String, s = "func_topic" ++ t) ∧ s ≠ "websocket") ∧
    ((GetGaugeType s).Subsystem = "func_topic" →
      (GetGaugeType s).Help = "Plusar function input output topic latency in ms") ∧
    ((GetGaugeType s).Subsystem = "websocket" →
      (GetGaugeType s).Help = "Plusar websocket pubsub topic latency in ms") ∧
    ((GetGaugeType s).Subsystem = "pubsub" →
      (GetGaugeType s).Help = "Plusar pubsub message latency in ms") ∧
    GetGaugeType "" = MsgLatencyGaugeOpt "pubsub" "Plusar pubsub message latency in ms" ∧
    GetGaugeType "func_topic" =
      MsgLatencyGaugeOpt "func_topic" "Plusar function input output topic latency in ms" ∧
    GetGaugeType "websocket_x" =
      MsgLatencyGaugeOpt "pubsub" "Plusar pubsub message latency in ms" := by
  have hws : ¬ ∃ t : String, "websocket" = "func_topic" ++ t := by
    rw [← HasPrefix_iff]; decide
  refine ⟨?_, ?_, ?_, ?_, ?_, ?_, ?_, ?_, by decide, by decide, by decide⟩
  all_goals
    simp only [GetGaugeType, funcTopicSubsystem, websocketSubsystem, pubSubSubsystem,
      MsgLatencyGaugeOpt]
    by_cases h1 : s = "func_topic" ∨ HasPrefix s "func_topic" = true
    · have hp : ∃ t : String, s = "func_topic" ++ t := by
        rcases h1 with h1 | h1
        · exact ⟨"", by rw [h1]; decide⟩
        · exact (HasPrefix_iff s "func_topic").1 h1
      have hne : s ≠ "websocket" := by
        rintro rfl
        exact hws hp
      simp [h1, hp, hne]
    · have hp : ¬ ∃ t : String, s = "func_topic" ++ t := by
        intro hp
        exact h1 (Or.inr ((HasPrefix_iff s "func_topic").2 hp))
      by_cases h2 : s = "websocket"
      · rw [if_neg h1, if_pos h2] <;> simp [hws, h2]
      · rw [if_neg h1, if_neg h2] <;> simp [hp, h2]

/-! ### The gauge write path -/

theorem lookup_cons_of_some {β : Type} (k key : String) (v g : β) (m : List (String × β))
    (hnone : m.lookup key = none) (h : m.lookup k = some g) :
    List.lookup k ((key, v) :: m) = some g := by
  have hne : k ≠ key := by
    rintro rfl
    rw [hnone] at h
    exact Option.noConfusion h
  have hb : (k == key) = false := by simpa using hne
  simp [List.lookup, hb, h]

theorem lookup_cons_self {β : Type} (key : String) (v : β) (m : List (String × β)) :
    List.lookup key ((key, v) :: m) = some v := by
  simp [List.lookup]

theorem PromGauge_spec {F P : Type} (opt : GaugeOpts) (cl : String) (num : F) (w : World F P) :
    ∃ (g : GaugeVec) (p : List (Event F P)),
      (p = [] ∨ p = [Event.Register g]) ∧
      (PromGauge opt cl num w).trace = w.trace ++ (p ++ [Event.GaugeSet g cl num]) ∧
      (PromGauge opt cl num w).metrics.lookup (getMetricKey opt) = some g ∧
      (∀ k g1, w.metrics.lookup k = some g1 →
        (PromGauge opt cl num w).metrics.lookup k = some g1) ∧
      (PromGauge opt cl num w).clusterHealth = w.clusterHealth ∧
      (PromGauge opt cl num w).summaries = w.summaries := by
  cases hl : w.metrics.lookup (getMetricKey opt) with
  | some g =>
    refine ⟨g, [], Or.inl rfl, ?_, ?_, ?_, ?_, ?_⟩ <;>
      simp [PromGauge, hl, World.emit]
  | none =>
    refine ⟨⟨w.nextId, opt, ["device"]⟩, [Event.Register ⟨w.nextId, opt, ["device"]⟩],
      Or.inr rfl, ?_, ?_, ?_, ?_, ?_⟩
    · simp [PromGauge, hl]
    · simp [PromGauge, hl, lookup_cons_self]
    · intro k g1 hk
      simp only [PromGauge, hl]
      exact lookup_cons_of_some k _ _ g1 _ hl hk
    · simp [PromGauge, hl]
    · simp [PromGauge, hl]

theorem emitted_of_trace_eq {F P : Type} (w w1 : World F P) (es : List (Event F P))
    (h : w1.trace = w.trace ++ es) : emitted w w1 = es := by
  simp [emitted, h]

/-- The alert step of one evaluation, as a list of calls. -/
theorem EvaluateClusterHealth_success {F P : Type} (env : Env F P) (client : Client)
    (w : World F P) (h1 : client.UpdateReplicas = none)
    (h2 : client.WatchPods env.DefaultPulsarNamespace = none) :
    ∃ (g1 g2 g3 g4 : GaugeVec) (p1 p2 p3 p4 a : List (Event F P)),
      (p1 = [] ∨ p1 = [Event.Register g1]) ∧ (p2 = [] ∨ p2 = [Event.Register g2]) ∧
      (p3 = [] ∨ p3 = [Event.Register g3]) ∧ (p4 = [] ∨ p4 = [Event.Register g4]) ∧
      a = (if client.EvalHealth.2.Status ≠ env.OK then
            (if client.EvalHealth.2.Status = env.TotalDown then
              [Event.VerboseAlert (env.cfg.Name ++ "-in-cluster")
                ("cluster " ++ (env.cfg.Name ++ "-in-cluster") ++
                  ", k8s pulsar cluster status is unhealthy, error message " ++
                  client.EvalHealth.1) (3 * Minute),
               Event.ReportIncident (env.cfg.Name ++ "-in-cluster")
                (env.cfg.Name ++ "-in-cluster")
                "kubernete cluster is down, reported by pulsar-monitor"
                ("cluster " ++ (env.cfg.Name ++ "-in-cluster") ++
                  ", k8s pulsar cluster status is unhealthy, error message " ++
                  client.EvalHealth.1) env.cfg.K8sConfig.AlertPolicy]
            else [])
          else [Event.ClearIncident (env.cfg.Name ++ "-in-cluster")]) ∧
      (EvaluateClusterHealth env client w).2 = none ∧
      (EvaluateClusterHealth env client w).1.trace = w.trace ++
        (p1 ++ [Event.GaugeSet g1 (env.cfg.Name ++ "-in-cluster")
            (env.float64 client.EvalHealth.2.ZookeeperOfflineInstances)] ++
         (p2 ++ [Event.GaugeSet g2 (env.cfg.Name ++ "-in-cluster")
            (env.float64 client.EvalHealth.2.BookkeeperOfflineInstances)]) ++
         (p3 ++ [Event.GaugeSet g3 (env.cfg.Name ++ "-in-cluster")
            (env.float64 client.EvalHealth.2.BrokerOfflineInstances)]) ++
         (p4 ++ [Event.GaugeSet g4 (env.cfg.Name ++ "-in-cluster")
            (env.float64 client.EvalHealth.2.ProxyOfflineInstances)]) ++
         a ++ [Event.LogInfof client.EvalHealth.2]) ∧
      (EvaluateClusterHealth env client w).1.metrics.lookup
        (getMetricKey (env.GetOfflinePodsCounter env.k8sZookeeperSubsystem)) = some g1 ∧
      (EvaluateClusterHealth env client w).1.metrics.lookup
        (getMetricKey (env.GetOfflinePodsCounter env.k8sBookkeeperSubsystem)) = some g2 ∧
      (EvaluateClusterHealth env client w).1.metrics.lookup
        (getMetricKey (env.GetOfflinePodsCounter env.k8sBrokerSubsystem)) = some g3 ∧
      (EvaluateClusterHealth env client w).1.metrics.lookup
        (getMetricKey (env.GetOfflinePodsCounter env.k8sProxySubsystem)) = some g4 ∧
      (EvaluateClusterHealth env client w).1.clusterHealth =
        w.clusterHealth.Set client.EvalHealth.2.Status
          client.EvalHealth.2.BrokerOfflineInstances ∧
      (EvaluateClusterHealth env client w).1.summaries = w.summaries := by
  obtain ⟨g1, p1, hp1, ht1, hl1, hm1, hc1, hs1⟩ :=
    PromGauge_spec (env.GetOfflinePodsCounter env.k8sZookeeperSubsystem)
      (env.cfg.Name ++ "-in-cluster") (env.float64 client.EvalHealth.2.ZookeeperOfflineInstances)
      ({ w with clusterHealth := (w.clusterHealth.Set client.EvalHealth.2.Status
            client.EvalHealth.2.BrokerOfflineInstances) } : World F P)
  obtain ⟨g2, p2, hp2, ht2, hl2, hm2, hc2, hs2⟩ :=
    PromGauge_spec (env.GetOfflinePodsCounter env.k8sBookkeeperSubsystem)
      (env.cfg.Name ++ "-in-cluster")
      (env.float64 client.EvalHealth.2.BookkeeperOfflineInstances)
      (PromGauge (env.GetOfflinePodsCounter env.k8sZookeeperSubsystem)
        (env.cfg.Name ++ "-in-cluster")
        (env.float64 client.EvalHealth.2.ZookeeperOfflineInstances)
        ({ w with clusterHealth := (w.clusterHealth.Set client.EvalHealth.2.Status
            client.EvalHealth.2.BrokerOfflineInstances) } : World F P))
  generalize hw2 : PromGauge (env.GetOfflinePodsCounter env.k8sZookeeperSubsystem)
        (env.cfg.Name ++ "-in-cluster")
        (env.float64 client.EvalHealth.2.ZookeeperOfflineInstances)
        ({ w with clusterHealth := (w.clusterHealth.Set client.EvalHealth.2.Status
            client.EvalHealth.2.BrokerOfflineInstances) } : World F P) = w2 at *
  obtain ⟨g3, p3, hp3, ht3, hl3, hm3, hc3, hs3⟩ :=
    PromGauge_spec (env.GetOfflinePodsCounter env.k8sBrokerSubsystem)
      (env.cfg.Name ++ "-in-cluster")
      (env.float64 client.EvalHealth.2.BrokerOfflineInstances)
      (PromGauge (env.GetOfflinePodsCounter env.k8sBookkeeperSubsystem)
        (env.cfg.Name ++ "-in-cluster")
        (env.float64 client.EvalHealth.2.BookkeeperOfflineInstances) w2)
  generalize hw3 : PromGauge (env.GetOfflinePodsCounter env.k8sBookkeeperSubsystem)
        (env.cfg.Name ++ "-in-cluster")
        (env.float64 client.EvalHealth.2.BookkeeperOfflineInstances) w2 = w3 at *
  obtain ⟨g4, p4, hp4, ht4, hl4, hm4, hc4, hs4⟩ :=
    PromGauge_spec (env.GetOfflinePodsCounter env.k8sProxySubsystem)
      (env.cfg.Name ++ "-in-cluster")
      (env.float64 client.EvalHealth.2.ProxyOfflineInstances)
      (PromGauge (env.GetOfflinePodsCounter env.k8sBrokerSubsystem)
        (env.cfg.Name ++ "-in-cluster")
        (env.float64 client.EvalHealth.2.BrokerOfflineInstances) w3)
  generalize hw4 : PromGauge (env.GetOfflinePodsCounter env.k8sBrokerSubsystem)
        (env.cfg.Name ++ "-in-cluster")
        (env.float64 client.EvalHealth.2.BrokerOfflineInstances) w3 = w4 at *
  generalize hw5 : PromGauge (env.GetOfflinePodsCounter env.k8sProxySubsystem)
        (env.cfg.Name ++ "-in-cluster")
        (env.float64 client.EvalHealth.2.ProxyOfflineInstances) w4 = w5 at *
  have hE : EvaluateClusterHealth env client w =
      ((if client.EvalHealth.2.Status ≠ env.OK then
          (if client.EvalHealth.2.Status = env.TotalDown then
            w5.emit [Event.VerboseAlert (env.cfg.Name ++ "-in-cluster")
                ("cluster " ++ (env.cfg.Name ++ "-in-cluster") ++
                  ", k8s pulsar cluster status is unhealthy, error message " ++
                  client.EvalHealth.1) (3 * Minute),
               Event.ReportIncident (env.cfg.Name ++ "-in-cluster")
                (env.cfg.Name ++ "-in-cluster")
                "kubernete cluster is down, reported by pulsar-monitor"
                ("cluster " ++ (env.cfg.Name ++ "-in-cluster") ++
                  ", k8s pulsar cluster status is unhealthy, error message " ++
                  client.EvalHealth.1) env.cfg.K8sConfig.AlertPolicy]
          else w5)
        else w5.emit [Event.ClearIncident (env.cfg.Name ++ "-in-cluster")]).emit
          [Event.LogInfof client.EvalHealth.2], none) := by
    simp only [EvaluateClusterHealth, h1, h2, PromGaugeInt, hw2, hw3, hw4, hw5]
  refine ⟨g1, g2, g3, g4, p1, p2, p3, p4, _, hp1, hp2, hp3, hp4, rfl, ?_, ?_, ?_, ?_, ?_, ?_,
    ?_, ?_⟩
  · rw [hE]
  · rw [hE]
    split_ifs <;> simp [World.emit, ht1, ht2, ht3, ht4]
  all_goals
    rw [hE]
    split_ifs <;> simp only [World.emit] <;>
      first
        | exact hm4 _ _ (hm3 _ _ (hm2 _ _ hl1))
        | exact hm4 _ _ (hm3 _ _ hl2)
        | exact hm4 _ _ hl3
        | exact hl4
        | simp [hc4, hc3, hc2, hc1]
        | simp [hs4, hs3, hs2, hs1]

theorem EvaluateClusterHealth_failure {F P : Type} (env : Env F P) (client : Client)
    (w : World F P) (err : GoError)
    (h : client.UpdateReplicas = some err ∨
      (client.UpdateReplicas = none ∧
        client.WatchPods env.DefaultPulsarNamespace = some err)) :
    EvaluateClusterHealth env client w = (w, some err) := by
  rcases h with h | ⟨h1, h2⟩
  · simp only [EvaluateClusterHealth, h]
  · simp only [EvaluateClusterHealth, h1, h2]

theorem EvaluateClusterHealth_trace {F P : Type} (env : Env F P) (client : Client)
    (w : World F P) :
    ∃ es : List (Event F P), (EvaluateClusterHealth env client w).1.trace = w.trace ++ es ∧
      (client.EvalHealth.2.Status ≠ env.TotalDown → reportedIncidents es = []) ∧
      ∀ err, (EvaluateClusterHealth env client w).2 = some err → es = [] := by
  cases h1 : client.UpdateReplicas with
  | some err =>
    refine ⟨[], ?_, fun _ => rfl, fun _ _ => rfl⟩
    rw [EvaluateClusterHealth_failure env client w err (Or.inl h1)]
    simp
  | none =>
    cases h2 : client.WatchPods env.DefaultPulsarNamespace with
    | some err =>
      refine ⟨[], ?_, fun _ => rfl, fun _ _ => rfl⟩
      rw [EvaluateClusterHealth_failure env client w err (Or.inr ⟨h1, h2⟩)]
      simp
    | none =>
      obtain ⟨g1, g2, g3, g4, p1, p2, p3, p4, a, hp1, hp2, hp3, hp4, ha, he, ht, -⟩ :=
        EvaluateClusterHealth_success env client w h1 h2
      refine ⟨_, ht, ?_, ?_⟩
      · intro hne
        rw [ha, if_neg hne]
        rcases hp1 with rfl | rfl <;> rcases hp2 with rfl | rfl <;>
          rcases hp3 with rfl | rfl <;> rcases hp4 with rfl | rfl <;>
          split_ifs <;> simp [reportedIncidents, List.filterMap_append]
      · intro err herr
        rw [he] at herr
        exact Option.noConfusion herr

theorem monitorLoop_no_report {F P : Type} (env : Env F P) :
    ∀ (ticks : List Client) (w : World F P),
      (∀ c ∈ ticks, c.EvalHealth.2.Status ≠ env.TotalDown) →
      ∃ es : List (Event F P), (monitorLoop env ticks w).trace = w.trace ++ es ∧
        reportedIncidents es = []
  | [], w, _ => ⟨[], by simp [monitorLoop], rfl⟩
  | c :: rest, w, h => by
    obtain ⟨es, ht, hr, herr⟩ := EvaluateClusterHealth_trace env c w
    have hr1 := hr (h c (List.mem_cons_self _ _))
    have hrest : ∀ c1 ∈ rest, c1.EvalHealth.2.Status ≠ env.TotalDown :=
      fun c1 hc1 => h c1 (List.mem_cons_of_mem _ hc1)
    cases hres : EvaluateClusterHealth env c w with
    | mk w1 r =>
      rw [hres] at ht herr
      cases r with
      | none =>
        obtain ⟨es2, ht2, hr2⟩ := monitorLoop_no_report env rest w1 hrest
        refine ⟨es ++ es2, ?_, ?_⟩
        · simp only [monitorLoop, hres, ht2]
          simp only [] at ht
          rw [ht, List.append_assoc]
        · simp [reportedIncidents, List.filterMap_append] at hr1 hr2 ⊢
          exact ⟨hr1, hr2⟩
      | some err =>
        obtain ⟨es2, ht2, hr2⟩ :=
          monitorLoop_no_report env rest (w1.emit [Event.LogErrorf err]) hrest
        refine ⟨es ++ ([Event.LogErrorf err] ++ es2), ?_, ?_⟩
        · simp only [monitorLoop, hres]
          rw [ht2]
          simp only [] at ht
          simp [World.emit, ht]
        · simp [reportedIncidents, List.filterMap_append] at hr1 hr2 ⊢
          exact ⟨hr1, hr2⟩

theorem tick_alertCalls {F P : Type} (env : Env F P) (client : Client)
    (w : World F P) (hconst : env.OK ≠ env.TotalDown)
    (h1 : client.UpdateReplicas = none)
    (h2 : client.WatchPods env.DefaultPulsarNamespace = none) :
    (client.EvalHealth.2.Status = env.TotalDown →
      alertCalls (emitted w (EvaluateClusterHealth env client w).1) =
        [Event.VerboseAlert (env.cfg.Name ++ "-in-cluster")
          ("cluster " ++ (env.cfg.Name ++ "-in-cluster") ++
            ", k8s pulsar cluster status is unhealthy, error message " ++
            client.EvalHealth.1) (3 * Minute),
         Event.ReportIncident (env.cfg.Name ++ "-in-cluster") (env.cfg.Name ++ "-in-cluster")
          "kubernete cluster is down, reported by pulsar-monitor"
          ("cluster " ++ (env.cfg.Name ++ "-in-cluster") ++
            ", k8s pulsar cluster status is unhealthy, error message " ++
            client.EvalHealth.1) env.cfg.K8sConfig.AlertPolicy]) ∧
    (client.EvalHealth.2.Status = env.OK →
      alertCalls (emitted w (EvaluateClusterHealth env client w).1) =
        [Event.ClearIncident (env.cfg.Name ++ "-in-cluster")]) ∧
    (client.EvalHealth.2.Status ≠ env.OK → client.EvalHealth.2.Status ≠ env.TotalDown →
      alertCalls (emitted w (EvaluateClusterHealth env client w).1) = []) := by
  obtain ⟨g1, g2, g3, g4, p1, p2, p3, p4, a, hp1, hp2, hp3, hp4, ha, -, ht, -⟩ :=
    EvaluateClusterHealth_success env client w h1 h2
  rw [emitted_of_trace_eq w _ _ ht, ha]
  refine ⟨?_, ?_, ?_⟩
  · intro htd
    have hne : client.EvalHealth.2.Status ≠ env.OK := fun h => hconst (h.symm.trans htd)
    rw [if_pos hne, if_pos htd]
    rcases hp1 with rfl | rfl <;> rcases hp2 with rfl | rfl <;>
      rcases hp3 with rfl | rfl <;> rcases hp4 with rfl | rfl <;>
      simp [alertCalls, List.filter_append, List.filter_cons]
  · intro hok
    rw [if_neg (not_not.2 hok)]
    rcases hp1 with rfl | rfl <;> rcases hp2 with rfl | rfl <;>
      rcases hp3 with rfl | rfl <;> rcases hp4 with rfl | rfl <;>
      simp [alertCalls, List.filter_append, List.filter_cons]
  · intro hne htd
    rw [if_pos hne, if_neg htd]
    rcases hp1 with rfl | rfl <;> rcases hp2 with rfl | rfl <;>
      rcases hp3 with rfl | rfl <;> rcases hp4 with rfl | rfl <;>
      simp [alertCalls, List.filter_append, List.filter_cons]

/-! ### One evaluation of the cluster health -/

/-- C2: for every prior state, when `UpdateReplicas` returns an error, or it succeeds
and `WatchPods` returns an error, `EvaluateClusterHealth` returns that error,
`clusterHealth.Get()` afterwards returns the pair it returned before, and the
evaluation makes no external call at all: no gauge write and no call to
`VerboseAlert`, `ReportIncident` or `ClearIncident`; both handle maps are untouched. -/
theorem EvaluateClusterHealth_refresh_error {F P : Type} (env : Env F P) (client : Client)
    (w : World F P) (err : GoError)
    (h : client.UpdateReplicas = some err ∨
      (client.UpdateReplicas = none ∧
        client.WatchPods env.DefaultPulsarNamespace = some err)) :
    (EvaluateClusterHealth env client w).2 = some err ∧
    (EvaluateClusterHealth env client w).1.clusterHealth.Get = w.clusterHealth.Get ∧
    emitted w (EvaluateClusterHealth env client w).1 = [] ∧
    gaugeWrites (emitted w (EvaluateClusterHealth env client w).1) = [] ∧
    alertCalls (emitted w (EvaluateClusterHealth env client w).1) = [] ∧
    (EvaluateClusterHealth env client w).1.metrics = w.metrics ∧
    (EvaluateClusterHealth env client w).1.summaries = w.summaries := by
  rw [EvaluateClusterHealth_failure env client w err h]
  simp [emitted, gaugeWrites, alertCalls]

theorem EvaluateClusterHealth_refresh_error_witness :
    (failingClient.UpdateReplicas = some ⟨"connection refused"⟩ ∨
      (failingClient.UpdateReplicas = none ∧
        failingClient.WatchPods sampleEnv.DefaultPulsarNamespace =
          some ⟨"connection refused"⟩)) ∧
    (EvaluateClusterHealth sampleEnv failingClient (World.init Int Unit)).2 =
      some ⟨"connection refused"⟩ ∧
    (EvaluateClusterHealth sampleEnv failingClient (World.init Int Unit)).1.clusterHealth.Get =
      (World.init Int Unit).clusterHealth.Get :=
  have h := EvaluateClusterHealth_refresh_error sampleEnv failingClient (World.init Int Unit)
    ⟨"connection refused"⟩ (Or.inl rfl)
  ⟨Or.inl rfl, h.1, h.2.1⟩

/-- C3: for every prior state, when both refresh calls succeed with verdict `v`, the
evaluation returns no error and `clusterHealth.Get()` afterwards returns
`(v.Status, v.BrokerOfflineInstances)`; any other successful evaluation, from any other
prior state, whose verdict has the same status and broker count leaves the same pair,
whatever its zookeeper, bookkeeper and proxy counts. -/
theorem EvaluateClusterHealth_sets_health {F P : Type} (env : Env F P) (client : Client)
    (w : World F P) (h1 : client.UpdateReplicas = none)
    (h2 : client.WatchPods env.DefaultPulsarNamespace = none) :
    (EvaluateClusterHealth env client w).2 = none ∧
    (EvaluateClusterHealth env client w).1.clusterHealth.Get =
      (client.EvalHealth.2.Status, client.EvalHealth.2.BrokerOfflineInstances) ∧
    ∀ (client2 : Client) (w2 : World F P), client2.UpdateReplicas = none →
      client2.WatchPods env.DefaultPulsarNamespace = none →
      client2.EvalHealth.2.Status = client.EvalHealth.2.Status →
      client2.EvalHealth.2.BrokerOfflineInstances = client.EvalHealth.2.BrokerOfflineInstances →
      (EvaluateClusterHealth env client2 w2).1.clusterHealth.Get =
        (EvaluateClusterHealth env client w).1.clusterHealth.Get := by
  have key : ∀ (c : Client) (v : World F P), c.UpdateReplicas = none →
      c.WatchPods env.DefaultPulsarNamespace = none →
      (EvaluateClusterHealth env c v).2 = none ∧
      (EvaluateClusterHealth env c v).1.clusterHealth.Get =
        (c.EvalHealth.2.Status, c.EvalHealth.2.BrokerOfflineInstances) := by
    intro c v hc1 hc2
    obtain ⟨g1, g2, g3, g4, p1, p2, p3, p4, a, -, -, -, -, -, he, -, -, -, -, -, hc, -⟩ :=
      EvaluateClusterHealth_success env c v hc1 hc2
    exact ⟨he, by rw [hc]; rfl⟩
  refine ⟨(key client w h1 h2).1, (key client w h1 h2).2, ?_⟩
  intro client2 w2 k1 k2 hs hb
  rw [(key client w h1 h2).2, (key client2 w2 k1 k2).2, hs, hb]

theorem EvaluateClusterHealth_sets_health_witness :
    (sampleClient 2).UpdateReplicas = none ∧
    (sampleClient 2).WatchPods sampleEnv.DefaultPulsarNamespace = none ∧
    (EvaluateClusterHealth sampleEnv (sampleClient 2) (World.init Int Unit)).2 = none ∧
    (EvaluateClusterHealth sampleEnv (sampleClient 2) (World.init Int Unit)).1.clusterHealth.Get =
      (2, 3) :=
  have h := EvaluateClusterHealth_sets_health sampleEnv (sampleClient 2) (World.init Int Unit)
    rfl rfl
  ⟨rfl, rfl, h.1, h.2.1⟩

/-- C8: on every evaluation in which both refresh calls succeed, whatever the verdict,
exactly four gauge observations are published, in the order zookeeper, bookkeeper,
broker, proxy: each goes to the handle stored under the key of that subsystem's
offline-pods counter, with label value the configured name followed by "-in-cluster"
and with value the verdict's offline count for that subsystem converted to float. -/
theorem EvaluateClusterHealth_gauges {F P : Type} (env : Env F P) (client : Client)
    (w : World F P) (h1 : client.UpdateReplicas = none)
    (h2 : client.WatchPods env.DefaultPulsarNamespace = none) :
    ∃ g1 g2 g3 g4 : GaugeVec,
      gaugeWrites (emitted w (EvaluateClusterHealth env client w).1) =
        [(g1, env.cfg.Name ++ "-in-cluster",
            env.float64 client.EvalHealth.2.ZookeeperOfflineInstances),
         (g2, env.cfg.Name ++ "-in-cluster",
            env.float64 client.EvalHealth.2.BookkeeperOfflineInstances),
         (g3, env.cfg.Name ++ "-in-cluster",
            env.float64 client.EvalHealth.2.BrokerOfflineInstances),
         (g4, env.cfg.Name ++ "-in-cluster",
            env.float64 client.EvalHealth.2.ProxyOfflineInstances)] ∧
      (EvaluateClusterHealth env client w).1.metrics.lookup
        (getMetricKey (env.GetOfflinePodsCounter env.k8sZookeeperSubsystem)) = some g1 ∧
      (EvaluateClusterHealth env client w).1.metrics.lookup
        (getMetricKey (env.GetOfflinePodsCounter env.k8sBookkeeperSubsystem)) = some g2 ∧
      (EvaluateClusterHealth env client w).1.metrics.lookup
        (getMetricKey (env.GetOfflinePodsCounter env.k8sBrokerSubsystem)) = some g3 ∧
      (EvaluateClusterHealth env client w).1.metrics.lookup
        (getMetricKey (env.GetOfflinePodsCounter env.k8sProxySubsystem)) = some g4 := by
  obtain ⟨g1, g2, g3, g4, p1, p2, p3, p4, a, hp1, hp2, hp3, hp4, ha, -, ht, hl1, hl2, hl3, hl4,
    -, -⟩ := EvaluateClusterHealth_success env client w h1 h2
  refine ⟨g1, g2, g3, g4, ?_, hl1, hl2, hl3, hl4⟩
  rw [emitted_of_trace_eq w _ _ ht, ha]
  rcases hp1 with rfl | rfl <;> rcases hp2 with rfl | rfl <;>
    rcases hp3 with rfl | rfl <;> rcases hp4 with rfl | rfl <;>
    split_ifs <;> simp [gaugeWrites, List.filterMap_append]

theorem EvaluateClusterHealth_gauges_witness :
    (sampleClient 0).UpdateReplicas = none ∧
    (sampleClient 0).WatchPods sampleEnv.DefaultPulsarNamespace = none ∧
    ∃ g1 g2 g3 g4 : GaugeVec,
      gaugeWrites (emitted (World.init Int Unit)
        (EvaluateClusterHealth sampleEnv (sampleClient 0) (World.init Int Unit)).1) =
        [(g1, "east-in-cluster", 1), (g2, "east-in-cluster", 2), (g3, "east-in-cluster", 3),
         (g4, "east-in-cluster", 4)] :=
  have h := EvaluateClusterHealth_gauges sampleEnv (sampleClient 0) (World.init Int Unit)
    rfl rfl
  ⟨rfl, rfl, h.elim fun g1 h => h.elim fun g2 h => h.elim fun g3 h => h.elim fun g4 h =>
    ⟨g1, g2, g3, g4, h.1⟩⟩

/-- C1: on every evaluation in which both refresh calls succeed: when the verdict status
is `TotalDown`, the alert calls made are exactly `VerboseAlert` with the scope label and
a 3-minute window followed by `ReportIncident` for the scope label, and `ClearIncident`
is not called; when the status is `OK`, the only alert call is `ClearIncident` for the
scope label; for every other status no alert call is made. Consequently a run of ticks
none of whose verdicts is `TotalDown` never calls `ReportIncident`. -/
theorem EvaluateClusterHealth_alerts {F P : Type} (env : Env F P) (client : Client)
    (w : World F P) (hconst : env.OK ≠ env.TotalDown)
    (h1 : client.UpdateReplicas = none)
    (h2 : client.WatchPods env.DefaultPulsarNamespace = none) :
    (client.EvalHealth.2.Status = env.TotalDown →
      alertCalls (emitted w (EvaluateClusterHealth env client w).1) =
        [Event.VerboseAlert (env.cfg.Name ++ "-in-cluster")
          ("cluster " ++ (env.cfg.Name ++ "-in-cluster") ++
            ", k8s pulsar cluster status is unhealthy, error message " ++
            client.EvalHealth.1) (3 * Minute),
         Event.ReportIncident (env.cfg.Name ++ "-in-cluster") (env.cfg.Name ++ "-in-cluster")
          "kubernete cluster is down, reported by pulsar-monitor"
          ("cluster " ++ (env.cfg.Name ++ "-in-cluster") ++
            ", k8s pulsar cluster status is unhealthy, error message " ++
            client.EvalHealth.1) env.cfg.K8sConfig.AlertPolicy]) ∧
    (client.EvalHealth.2.Status = env.OK →
      alertCalls (emitted w (EvaluateClusterHealth env client w).1) =
        [Event.ClearIncident (env.cfg.Name ++ "-in-cluster")]) ∧
    (client.EvalHealth.2.Status ≠ env.OK → client.EvalHealth.2.Status ≠ env.TotalDown →
      alertCalls (emitted w (EvaluateClusterHealth env client w).1) = []) ∧
    (3 * Minute = 180000000000) ∧
    ∀ (ticks : List Client) (w0 : World F P),
      (∀ c ∈ ticks, c.EvalHealth.2.Status ≠ env.TotalDown) →
      reportedIncidents (emitted w0 (monitorLoop env ticks w0)) = [] := by
  obtain ⟨hA, hB, hC⟩ := tick_alertCalls env client w hconst h1 h2
  refine ⟨hA, hB, hC, by decide, ?_⟩
  intro ticks w0 hall
  obtain ⟨es, hes, hr⟩ := monitorLoop_no_report env ticks w0 hall
  rw [emitted_of_trace_eq w0 _ _ hes, hr]

theorem EvaluateClusterHealth_alerts_witness :
    sampleEnv.OK ≠ sampleEnv.TotalDown ∧
    (sampleClient 0).UpdateReplicas = none ∧
    (sampleClient 0).WatchPods sampleEnv.DefaultPulsarNamespace = none ∧
    ((sampleClient 0).EvalHealth.2.Status = sampleEnv.TotalDown →
      alertCalls (emitted (World.init Int Unit)
        (EvaluateClusterHealth sampleEnv (sampleClient 0) (World.init Int Unit)).1) =
        [Event.VerboseAlert "east-in-cluster"
          ("cluster " ++ ("east" ++ "-in-cluster") ++
            ", k8s pulsar cluster status is unhealthy, error message " ++ "brokers offline")
          (3 * Minute),
         Event.ReportIncident "east-in-cluster" "east-in-cluster"
          "kubernete cluster is down, reported by pulsar-monitor"
          ("cluster " ++ ("east" ++ "-in-cluster") ++
            ", k8s pulsar cluster status is unhealthy, error message " ++ "brokers offline")
          ()]) ∧
    reportedIncidents (emitted (World.init Int Unit)
      (monitorLoop sampleEnv [sampleClient 1, sampleClient 2, sampleClient 1]
        (World.init Int Unit))) = [] :=
  have h := EvaluateClusterHealth_alerts sampleEnv (sampleClient 0) (World.init Int Unit)
    (by decide) rfl rfl
  ⟨by decide, rfl, rfl, h.1,
    h.2.2.2.2 [sampleClient 1, sampleClient 2, sampleClient 1] (World.init Int Unit)
      (by decide)⟩

/-! ### The handle cache -/

theorem PromGauge_cases {F P : Type} (opt : GaugeOpts) (cl : String) (num : F)
    (w : World F P) :
    (∃ g, w.metrics.lookup (getMetricKey opt) = some g ∧
      PromGauge opt cl num w = { w with trace := w.trace ++ [Event.GaugeSet g cl num] }) ∨
    (w.metrics.lookup (getMetricKey opt) = none ∧
      PromGauge opt cl num w =
        { w with
          nextId := w.nextId + 1
          trace := w.trace ++ [Event.Register ⟨w.nextId, opt, ["device"]⟩,
            Event.GaugeSet ⟨w.nextId, opt, ["device"]⟩ cl num]
          metrics := (getMetricKey opt, ⟨w.nextId, opt, ["device"]⟩) :: w.metrics }) := by
  cases hl : w.metrics.lookup (getMetricKey opt) with
  | some g => exact Or.inl ⟨g, rfl, by simp [PromGauge, hl, World.emit]⟩
  | none => exact Or.inr ⟨rfl, by simp [PromGauge, hl]⟩

theorem PromLatencySum_eq {F P : Type} (float64 : Int → F)
    (reg : List (Event F P) → SummaryVec → Bool) (opt : GaugeOpts) (cl : String)
    (latency : Int) (w : World F P) :
    PromLatencySum float64 reg opt cl latency w =
      match (PromGauge opt cl (float64 (Int.tdiv latency Millisecond)) w).summaries.lookup
          (getMetricKey opt) with
      | some summary =>
        some ((PromGauge opt cl (float64 (Int.tdiv latency Millisecond)) w).emit
          [Event.SummaryObserve summary cl (float64 (Int.tdiv latency Millisecond))])
      | none =>
        if reg (PromGauge opt cl (float64 (Int.tdiv latency Millisecond)) w).trace
            ⟨(PromGauge opt cl (float64 (Int.tdiv latency Millisecond)) w).nextId,
              summaryOptsOf opt, ["device"]⟩ then
          some { (PromGauge opt cl (float64 (Int.tdiv latency Millisecond)) w) with
            nextId := (PromGauge opt cl (float64 (Int.tdiv latency Millisecond)) w).nextId + 1
            trace := (PromGauge opt cl (float64 (Int.tdiv latency Millisecond)) w).trace ++
              [Event.MustRegister
                ⟨(PromGauge opt cl (float64 (Int.tdiv latency Millisecond)) w).nextId,
                  summaryOptsOf opt, ["device"]⟩,
               Event.SummaryObserve
                ⟨(PromGauge opt cl (float64 (Int.tdiv latency Millisecond)) w).nextId,
                  summaryOptsOf opt, ["device"]⟩ cl (float64 (Int.tdiv latency Millisecond))]
            summaries := (getMetricKey opt,
              ⟨(PromGauge opt cl (float64 (Int.tdiv latency Millisecond)) w).nextId,
                summaryOptsOf opt, ["device"]⟩) ::
              (PromGauge opt cl (float64 (Int.tdiv latency Millisecond)) w).summaries }
        else none := by
  cases hl : w.metrics.lookup (getMetricKey opt) <;> simp only [PromLatencySum, PromGauge, hl]

theorem lookup_none_iff_keys {β : Type} (k : String) (m : List (String × β)) :
    m.lookup k = none ↔ k ∉ m.map Prod.fst := by
  rw [List.lookup_eq_none_iff]
  constructor
  · intro h hk
    obtain ⟨p, hp, rfl⟩ := List.mem_map.1 hk
    simpa using h p hp
  · intro h p hp
    have : p.1 ≠ k := by
      rintro rfl
      exact h (List.mem_map_of_mem _ hp)
    simpa using fun e => this e.symm

theorem keys_of_lookup_some {β : Type} (k : String) (v : β) (m : List (String × β))
    (h : m.lookup k = some v) : k ∈ m.map Prod.fst := by
  by_contra hk
  rw [(lookup_none_iff_keys k m).2 hk] at h
  exact Option.noConfusion h

/-- What one call does to the world, case by case. -/
theorem Call_run_spec {F P : Type} (float64 : Int → F)
    (reg : List (Event F P) → SummaryVec → Bool) (c : Call F) (w w1 : World F P)
    (h : c.run float64 reg w = some w1) :
    ∃ (g : GaugeVec) (pg tl : List (Event F P)),
      w1.trace = w.trace ++ (pg ++ [Event.GaugeSet g c.cluster (c.value float64)] ++ tl) ∧
      ((pg = [] ∧ w.metrics.lookup c.key = some g ∧ w1.metrics = w.metrics) ∨
        (pg = [Event.Register g] ∧ w.metrics.lookup c.key = none ∧ g.opts = c.opt ∧
          w1.metrics = (c.key, g) :: w.metrics)) ∧
      ((c.isLatency = false ∧ tl = [] ∧ w1.summaries = w.summaries) ∨
        (c.isLatency = true ∧ ∃ (s : SummaryVec) (ps : List (Event F P)),
          tl = ps ++ [Event.SummaryObserve s c.cluster (c.value float64)] ∧
          ((ps = [] ∧ w.summaries.lookup c.key = some s ∧ w1.summaries = w.summaries) ∨
            (ps = [Event.MustRegister s] ∧ w.summaries.lookup c.key = none ∧
              s.opts = summaryOptsOf c.opt ∧
              w1.summaries = (c.key, s) :: w.summaries)))) := by
  have hg : ∀ (opt : GaugeOpts) (cl : String) (num : F),
      ∃ (g : GaugeVec) (pg : List (Event F P)),
        (PromGauge opt cl num w).trace = w.trace ++ (pg ++ [Event.GaugeSet g cl num]) ∧
        (PromGauge opt cl num w).summaries = w.summaries ∧
        ((pg = [] ∧ w.metrics.lookup (getMetricKey opt) = some g ∧
            (PromGauge opt cl num w).metrics = w.metrics) ∨
          (pg = [Event.Register g] ∧ w.metrics.lookup (getMetricKey opt) = none ∧
            g.opts = opt ∧
            (PromGauge opt cl num w).metrics = (getMetricKey opt, g) :: w.metrics)) := by
    intro opt cl num
    rcases PromGauge_cases opt cl num w with ⟨g, hl, he⟩ | ⟨hl, he⟩
    · exact ⟨g, [], by rw [he]; simp, by rw [he], Or.inl ⟨rfl, hl, by rw [he]⟩⟩
    · exact ⟨_, [Event.Register ⟨w.nextId, opt, ["device"]⟩], by rw [he]; simp, by rw [he],
        Or.inr ⟨rfl, hl, rfl, by rw [he]⟩⟩
  cases c with
  | gauge opt cl num =>
    simp only [Call.run, Option.some.injEq] at h
    subst h
    obtain ⟨g, pg, ht, hs, hm⟩ := hg opt cl num
    exact ⟨g, pg, [], by simpa [Call.cluster, Call.value] using ht, hm,
      Or.inl ⟨rfl, rfl, hs⟩⟩
  | gaugeInt opt cl num =>
    simp only [Call.run, PromGaugeInt, Option.some.injEq] at h
    subst h
    obtain ⟨g, pg, ht, hs, hm⟩ := hg opt cl (float64 num)
    exact ⟨g, pg, [], by simpa [Call.cluster, Call.value] using ht, hm,
      Or.inl ⟨rfl, rfl, hs⟩⟩
  | latencySum opt cl latency =>
    simp only [Call.run] at h
    rw [PromLatencySum_eq] at h
    obtain ⟨g, pg, ht, hs, hm⟩ := hg opt cl (float64 (Int.tdiv latency Millisecond))
    generalize PromGauge opt cl (float64 (Int.tdiv latency Millisecond)) w = W at h ht hs hm
    cases hl : W.summaries.lookup (getMetricKey opt) with
    | some s =>
      simp only [hl, Option.some.injEq] at h
      subst h
      refine ⟨g, pg, [Event.SummaryObserve s cl (float64 (Int.tdiv latency Millisecond))],
        ?_, hm, Or.inr ⟨rfl, s, [], rfl, Or.inl ⟨rfl, ?_, ?_⟩⟩⟩
      · simp [World.emit, ht, Call.cluster, Call.value]
      · rw [← hs]; exact hl
      · simp [World.emit, hs]
    | none =>
      simp only [hl] at h
      by_cases hr : reg W.trace ⟨W.nextId, summaryOptsOf opt, ["device"]⟩ = true
      · simp only [hr, if_true, Option.some.injEq] at h
        subst h
        refine ⟨g, pg, [Event.MustRegister ⟨W.nextId, summaryOptsOf opt, ["device"]⟩,
          Event.SummaryObserve ⟨W.nextId, summaryOptsOf opt, ["device"]⟩ cl
            (float64 (Int.tdiv latency Millisecond))], ?_, hm,
          Or.inr ⟨rfl, ⟨W.nextId, summaryOptsOf opt, ["device"]⟩,
            [Event.MustRegister ⟨W.nextId, summaryOptsOf opt, ["device"]⟩], rfl,
            Or.inr ⟨rfl, ?_, rfl, ?_⟩⟩⟩
        · simp [ht, Call.cluster, Call.value]
        · rw [← hs]; exact hl
        · simp [hs, Call.key, Call.opt]
      · simp [hr] at h

theorem runCalls_append {F P : Type} (float64 : Int → F)
    (reg : List (Event F P) → SummaryVec → Bool) :
    ∀ (a b : List (Call F)) (w : World F P),
      runCalls float64 reg (a ++ b) w =
        (runCalls float64 reg a w).bind (runCalls float64 reg b)
  | [], b, w => by simp [runCalls]
  | c :: a, b, w => by
    simp only [List.cons_append, runCalls]
    cases c.run float64 reg w with
    | none => simp
    | some w1 => simpa using runCalls_append float64 reg a b w1

theorem gaugeRegistrations_append {F P : Type} (a b : List (Event F P)) :
    gaugeRegistrations (a ++ b) = gaugeRegistrations a ++ gaugeRegistrations b :=
  List.filterMap_append a b _

theorem summaryRegistrations_append {F P : Type} (a b : List (Event F P)) :
    summaryRegistrations (a ++ b) = summaryRegistrations a ++ summaryRegistrations b :=
  List.filterMap_append a b _

theorem gaugeWrites_append {F P : Type} (a b : List (Event F P)) :
    gaugeWrites (a ++ b) = gaugeWrites a ++ gaugeWrites b :=
  List.filterMap_append a b _

theorem summaryWrites_append {F P : Type} (a b : List (Event F P)) :
    summaryWrites (a ++ b) = summaryWrites a ++ summaryWrites b :=
  List.filterMap_append a b _

theorem CacheInv_init {F P : Type} : CacheInv ([] : List (Call F)) (World.init F P) := by
  simp [CacheInv, World.init, gaugeRegistrations, summaryRegistrations]

theorem CacheInv_step {F P : Type} (float64 : Int → F)
    (reg : List (Event F P) → SummaryVec → Bool) (hist : List (Call F)) (c : Call F)
    (w w1 : World F P) (hinv : CacheInv hist w) (h : c.run float64 reg w = some w1) :
    CacheInv (hist ++ [c]) w1 := by
  obtain ⟨hA, hB, hC, hA2, hB2, hC2⟩ := hinv
  obtain ⟨g, pg, tl, ht, hg, hs⟩ := Call_run_spec float64 reg c w w1 h
  have htl : gaugeRegistrations tl = [] := by
    rcases hs with ⟨-, rfl, -⟩ | ⟨-, s, ps, rfl, ⟨rfl, -, -⟩ | ⟨rfl, -, -, -⟩⟩ <;>
      simp [gaugeRegistrations]
  have hpg : summaryRegistrations pg = [] := by
    rcases hg with ⟨rfl, -, -⟩ | ⟨rfl, -, -, -⟩ <;> simp [summaryRegistrations]
  refine ⟨?_, ?_, ?_, ?_, ?_, ?_⟩
  · rcases hg with ⟨-, -, hm⟩ | ⟨-, hl, -, hm⟩
    · rw [hm]; exact hA
    · rw [hm]
      simp only [List.map_cons, List.nodup_cons]
      exact ⟨(lookup_none_iff_keys _ _).1 hl, hA⟩
  · intro k
    rcases hg with ⟨-, hl, hm⟩ | ⟨-, -, -, hm⟩
    · rw [hm, hB k]
      simp only [List.map_append, List.mem_append, List.map_cons, List.map_nil,
        List.mem_singleton]
      constructor
      · exact Or.inl
      · rintro (hk | rfl)
        · exact hk
        · exact (hB _).1 (keys_of_lookup_some _ _ _ hl)
    · rw [hm]
      simp only [List.map_append, List.mem_append, List.map_cons, List.map_nil,
        List.mem_singleton, List.mem_cons, hB k]
      tauto
  · rw [ht]
    rcases hg with ⟨rfl, -, hm⟩ | ⟨rfl, -, -, hm⟩
    · rw [hm, ← hC]
      simp only [gaugeRegistrations_append, htl]
      simp [gaugeRegistrations]
    · rw [hm, List.length_cons, ← hC]
      simp only [gaugeRegistrations_append, htl]
      simp [gaugeRegistrations]
  · rcases hs with ⟨-, -, hm⟩ | ⟨-, s, ps, -, ⟨-, -, hm⟩ | ⟨-, hl, -, hm⟩⟩
    · rw [hm]; exact hA2
    · rw [hm]; exact hA2
    · rw [hm]
      simp only [List.map_cons, List.nodup_cons]
      exact ⟨(lookup_none_iff_keys _ _).1 hl, hA2⟩
  · intro k
    rcases hs with ⟨hlat, -, hm⟩ | ⟨hlat, s, ps, -, ⟨-, hl, hm⟩ | ⟨-, -, -, hm⟩⟩
    · rw [hm, hB2 k]
      simp [List.filter_append, List.filter_cons, hlat]
    · rw [hm, hB2 k]
      simp only [List.filter_append, List.filter_cons, hlat, if_true, List.filter_nil,
        List.map_append, List.mem_append, List.map_cons, List.map_nil, List.mem_singleton]
      constructor
      · exact Or.inl
      · rintro (hk | rfl)
        · exact hk
        · exact (hB2 _).1 (keys_of_lookup_some _ _ _ hl)
    · rw [hm]
      simp only [List.filter_append, List.filter_cons, hlat, if_true, List.filter_nil,
        List.map_append, List.mem_append, List.map_cons, List.map_nil, List.mem_singleton,
        List.mem_cons, hB2 k]
      tauto
  · rw [ht]
    rcases hs with ⟨-, rfl, hm⟩ | ⟨-, s, ps, rfl, ⟨rfl, -, hm⟩ | ⟨rfl, -, -, hm⟩⟩
    · rw [hm, ← hC2]
      simp only [summaryRegistrations_append, hpg]
      simp [summaryRegistrations]
    · rw [hm, ← hC2]
      simp only [summaryRegistrations_append, hpg]
      simp [summaryRegistrations]
    · rw [hm, List.length_cons, ← hC2]
      simp only [summaryRegistrations_append, hpg]
      simp [summaryRegistrations]

theorem CacheInv_run {F P : Type} (float64 : Int → F)
    (reg : List (Event F P) → SummaryVec → Bool) :
    ∀ (cs hist : List (Call F)) (w w1 : World F P), CacheInv hist w →
      runCalls float64 reg cs w = some w1 → CacheInv (hist ++ cs) w1
  | [], hist, w, w1, hinv, h => by
    simp only [runCalls, Option.some.injEq] at h
    subst h
    simpa using hinv
  | c :: cs, hist, w, w1, hinv, h => by
    simp only [runCalls] at h
    cases hc : c.run float64 reg w with
    | none => simp [hc] at h
    | some w2 =>
      simp only [hc] at h
      have h2 := CacheInv_run float64 reg cs (hist ++ [c]) w2 w1
        (CacheInv_step float64 reg hist c w w2 hinv hc) h
      simpa using h2

theorem lookup_mono_step {F P : Type} (float64 : Int → F)
    (reg : List (Event F P) → SummaryVec → Bool) (c : Call F) (w w1 : World F P)
    (h : c.run float64 reg w = some w1) :
    (∀ k g, w.metrics.lookup k = some g → w1.metrics.lookup k = some g) ∧
    (∀ k s, w.summaries.lookup k = some s → w1.summaries.lookup k = some s) := by
  obtain ⟨g, pg, tl, -, hg, hs⟩ := Call_run_spec float64 reg c w w1 h
  constructor
  · intro k g1 hk
    rcases hg with ⟨-, -, hm⟩ | ⟨-, hl, -, hm⟩
    · rw [hm]; exact hk
    · rw [hm]; exact lookup_cons_of_some k _ _ g1 _ hl hk
  · intro k s1 hk
    rcases hs with ⟨-, -, hm⟩ | ⟨-, s, ps, -, ⟨-, -, hm⟩ | ⟨-, hl, -, hm⟩⟩
    · rw [hm]; exact hk
    · rw [hm]; exact hk
    · rw [hm]; exact lookup_cons_of_some k _ _ s1 _ hl hk

theorem lookup_mono_run {F P : Type} (float64 : Int → F)
    (reg : List (Event F P) → SummaryVec → Bool) :
    ∀ (cs : List (Call F)) (w w1 : World F P), runCalls float64 reg cs w = some w1 →
      (∀ k g, w.metrics.lookup k = some g → w1.metrics.lookup k = some g) ∧
      (∀ k s, w.summaries.lookup k = some s → w1.summaries.lookup k = some s)
  | [], w, w1, h => by
    simp only [runCalls, Option.some.injEq] at h
    subst h
    exact ⟨fun _ _ h => h, fun _ _ h => h⟩
  | c :: cs, w, w1, h => by
    simp only [runCalls] at h
    cases hc : c.run float64 reg w with
    | none => simp [hc] at h
    | some w2 =>
      simp only [hc] at h
      have h1 := lookup_mono_step float64 reg c w w2 hc
      have h2 := lookup_mono_run float64 reg cs w2 w1 h
      exact ⟨fun k g hk => h2.1 k g (h1.1 k g hk), fun k s hk => h2.2 k s (h1.2 k s hk)⟩

/-- The observations one call makes, and the handle it leaves under its key. -/
theorem Call_run_writes {F P : Type} (float64 : Int → F)
    (reg : List (Event F P) → SummaryVec → Bool) (c : Call F) (w w1 : World F P)
    (h : c.run float64 reg w = some w1) :
    (∃ g : GaugeVec, gaugeWrites (emitted w w1) = [(g, c.cluster, c.value float64)] ∧
      w1.metrics.lookup c.key = some g ∧
      (w.metrics.lookup c.key = none →
        g.opts = c.opt ∧ g ∈ gaugeRegistrations (emitted w w1))) ∧
    (c.isLatency = false → summaryWrites (emitted w w1) = []) ∧
    (c.isLatency = true →
      ∃ s : SummaryVec, summaryWrites (emitted w w1) = [(s, c.cluster, c.value float64)] ∧
        w1.summaries.lookup c.key = some s ∧
        (w.summaries.lookup c.key = none →
          s.opts = summaryOptsOf c.opt ∧ s ∈ summaryRegistrations (emitted w w1))) := by
  obtain ⟨g, pg, tl, ht, hg, hs⟩ := Call_run_spec float64 reg c w w1 h
  rw [emitted_of_trace_eq w w1 _ ht]
  have htl : gaugeWrites tl = [] := by
    rcases hs with ⟨-, rfl, -⟩ | ⟨-, s, ps, rfl, ⟨rfl, -, -⟩ | ⟨rfl, -, -, -⟩⟩ <;>
      simp [gaugeWrites]
  have hpgw : gaugeWrites pg = [] := by
    rcases hg with ⟨rfl, -, -⟩ | ⟨rfl, -, -, -⟩ <;> simp [gaugeWrites]
  have hpgs : summaryWrites pg = [] := by
    rcases hg with ⟨rfl, -, -⟩ | ⟨rfl, -, -, -⟩ <;> simp [summaryWrites]
  refine ⟨⟨g, ?_, ?_, ?_⟩, ?_, ?_⟩
  · simp only [gaugeWrites_append, htl, hpgw]
    simp [gaugeWrites]
  · rcases hg with ⟨-, hl, hm⟩ | ⟨-, -, -, hm⟩
    · rw [hm]; exact hl
    · rw [hm]; exact lookup_cons_self _ _ _
  · intro hnone
    rcases hg with ⟨-, hl, -⟩ | ⟨rfl, -, ho, -⟩
    · rw [hnone] at hl
      exact Option.noConfusion hl
    · refine ⟨ho, ?_⟩
      simp [gaugeRegistrations_append, gaugeRegistrations]
  · intro hlat
    rcases hs with ⟨-, rfl, -⟩ | ⟨hlat2, -⟩
    · simp only [summaryWrites_append, hpgs]
      simp [summaryWrites]
    · rw [hlat] at hlat2
      exact Bool.noConfusion hlat2
  · intro hlat
    rcases hs with ⟨hlat2, -⟩ | ⟨-, s, ps, rfl, hcase⟩
    · rw [hlat] at hlat2
      exact Bool.noConfusion hlat2
    · refine ⟨s, ?_, ?_, ?_⟩
      · rcases hcase with ⟨rfl, -, -⟩ | ⟨rfl, -, -, -⟩ <;>
          · simp only [summaryWrites_append, hpgs]
            simp [summaryWrites]
      · rcases hcase with ⟨-, hl, hm⟩ | ⟨-, -, -, hm⟩
        · rw [hm]; exact hl
        · rw [hm]; exact lookup_cons_self _ _ _
      · intro hnone
        rcases hcase with ⟨-, hl, -⟩ | ⟨rfl, -, ho, -⟩
        · rw [hnone] at hl
          exact Option.noConfusion hl
        · refine ⟨ho, ?_⟩
          simp [summaryRegistrations_append, summaryRegistrations]

theorem runCalls_singleton {F P : Type} (float64 : Int → F)
    (reg : List (Event F P) → SummaryVec → Bool) (c : Call F) (w : World F P) :
    runCalls float64 reg [c] w = c.run float64 reg w := by
  simp only [runCalls]
  cases c.run float64 reg w <;> rfl

/-- The worlds around the call at position `i` of a run that completes. -/
theorem call_at {F P : Type} (float64 : Int → F)
    (reg : List (Event F P) → SummaryVec → Bool) (calls : List (Call F)) (w0 w : World F P)
    (hrun : runCalls float64 reg calls w0 = some w) (i : Nat) (ci : Call F)
    (hi : calls[i]? = some ci) :
    ∃ wi wi1 : World F P, runCalls float64 reg (calls.take i) w0 = some wi ∧
      ci.run float64 reg wi = some wi1 ∧
      runCalls float64 reg (calls.take (i + 1)) w0 = some wi1 ∧
      runCalls float64 reg (calls.drop (i + 1)) wi1 = some w := by
  have hsplit : calls = calls.take i ++ ([ci] ++ calls.drop (i + 1)) := by
    obtain ⟨hlt, hget⟩ := List.getElem?_eq_some.1 hi
    have := List.take_append_drop i calls
    rw [List.drop_eq_getElem_cons hlt, hget] at this
    simpa using this.symm
  have h1 := hrun
  rw [hsplit, runCalls_append] at h1
  cases ha : runCalls float64 reg (calls.take i) w0 with
  | none => simp [ha] at h1
  | some wi =>
    simp only [ha, Option.some_bind] at h1
    rw [runCalls_append, runCalls_singleton] at h1
    cases hb : ci.run float64 reg wi with
    | none => simp [hb] at h1
    | some wi1 =>
      simp only [hb, Option.some_bind] at h1
      refine ⟨wi, wi1, rfl, hb, ?_, h1⟩
      rw [List.take_succ, hi, Option.toList, runCalls_append, ha, Option.some_bind,
        runCalls_singleton, hb]

theorem eventsOfCall_eq {F P : Type} (float64 : Int → F)
    (reg : List (Event F P) → SummaryVec → Bool) (calls : List (Call F)) (i : Nat)
    (wi wi1 : World F P)
    (h1 : runCalls float64 reg (calls.take i) (World.init F P) = some wi)
    (h2 : runCalls float64 reg (calls.take (i + 1)) (World.init F P) = some wi1) :
    eventsOfCall float64 reg calls i = emitted wi wi1 := by
  simp [eventsOfCall, traceAfter, h1, h2, emitted]

theorem prefix_mono {F P : Type} (float64 : Int → F)
    (reg : List (Event F P) → SummaryVec → Bool) (calls : List (Call F)) (w0 : World F P)
    (n m : Nat) (hnm : n ≤ m) (wn wm : World F P)
    (hn : runCalls float64 reg (calls.take n) w0 = some wn)
    (hm : runCalls float64 reg (calls.take m) w0 = some wm) :
    (∀ k g, wn.metrics.lookup k = some g → wm.metrics.lookup k = some g) ∧
    (∀ k s, wn.summaries.lookup k = some s → wm.summaries.lookup k = some s) := by
  have hsplit : calls.take m = calls.take n ++ (calls.take m).drop n := by
    have := List.take_append_drop n (calls.take m)
    rw [List.take_take, Nat.min_eq_left hnm] at this
    exact this.symm
  rw [hsplit, runCalls_append, hn, Option.some_bind] at hm
  exact lookup_mono_run float64 reg _ wn wm hm

theorem key_not_in_prefix {F : Type} (calls : List (Call F)) (j : Nat) (k : String)
    (hfirst : ∀ (n : Nat) (c : Call F), n < j → calls[n]? = some c → c.key ≠ k) :
    k ∉ (calls.take j).map Call.key := by
  intro hk
  obtain ⟨c, hc, hck⟩ := List.mem_map.1 hk
  obtain ⟨n, hn⟩ := List.mem_iff_getElem?.1 hc
  rw [List.getElem?_take] at hn
  by_cases hlt : n < j
  · rw [if_pos hlt] at hn
    exact hfirst n c hlt hn hck
  · rw [if_neg hlt] at hn
    exact Option.noConfusion hn

theorem latency_key_not_in_prefix {F : Type} (calls : List (Call F)) (j : Nat) (k : String)
    (hfirst : ∀ (n : Nat) (c : Call F), n < j → calls[n]? = some c → c.isLatency = true →
      c.key ≠ k) :
    k ∉ ((calls.take j).filter fun c => c.isLatency).map Call.key := by
  intro hk
  obtain ⟨c, hc, hck⟩ := List.mem_map.1 hk
  obtain ⟨hc1, hlat⟩ := List.mem_filter.1 hc
  obtain ⟨n, hn⟩ := List.mem_iff_getElem?.1 hc1
  rw [List.getElem?_take] at hn
  by_cases hlt : n < j
  · rw [if_pos hlt] at hn
    exact hfirst n c hlt hn hlat hck
  · rw [if_neg hlt] at hn
    exact Option.noConfusion hn

theorem dedup_length_of_keys (keys hist : List String) (hnd : keys.Nodup)
    (hmem : ∀ k, k ∈ keys ↔ k ∈ hist) : keys.length = hist.dedup.length := by
  rw [← List.toFinset_card_of_nodup hnd, ← List.card_toFinset]
  congr 1
  ext k
  simp [hmem k]

/-- With a backend that accepts every summary registration no call panics: every
sequence of calls runs to completion from every world. -/
theorem runCalls_total {F P : Type} (float64 : Int → F) :
    ∀ (calls : List (Call F)) (w0 : World F P),
      ∃ w, runCalls float64 (fun _ _ => true) calls w0 = some w
  | [], w0 => ⟨w0, rfl⟩
  | c :: cs, w0 => by
    have hc : ∃ w1, c.run float64 (fun _ _ => true) w0 = some w1 := by
      cases c with
      | gauge opt cl num => exact ⟨_, rfl⟩
      | gaugeInt opt cl num => exact ⟨_, rfl⟩
      | latencySum opt cl latency =>
        simp only [Call.run]
        rw [PromLatencySum_eq]
        cases (PromGauge opt cl (float64 (Int.tdiv latency Millisecond)) w0).summaries.lookup
            (getMetricKey opt) with
        | some s => exact ⟨_, rfl⟩
        | none => exact ⟨_, rfl⟩
    obtain ⟨w1, hw1⟩ := hc
    obtain ⟨w, hw⟩ := runCalls_total float64 cs w1
    exact ⟨w, by simp only [runCalls, hw1, hw]⟩

theorem sampleCalls_run :
    runCalls (fun n => n) (fun _ _ => true) sampleCalls (World.init Int Unit) =
      some sampleCallsWorld := by
  decide

/-- C5: starting from the empty registry, for every finite sequence of `PromGauge`,
`PromGaugeInt` and `PromLatencySum` calls executed one after the other to completion:
the number of gauge-vector registrations equals the number of distinct metric keys in
the sequence; the number of summary-vector registrations equals the number of distinct
keys among the `PromLatencySum` calls; every call makes exactly one gauge write, with
its own label and value, to the handle that the first call with the same key created
and registered, and that handle is still the one stored under the key at the end;
likewise every `PromLatencySum` call makes exactly one summary observation, to the
summary created by the first `PromLatencySum` call with the same key, and the other
calls make none. -/
theorem registry_registers_once_per_key {F P : Type} (float64 : Int → F)
    (reg : List (Event F P) → SummaryVec → Bool) (calls : List (Call F)) (w : World F P)
    (hrun : runCalls float64 reg calls (World.init F P) = some w) :
    (gaugeRegistrations w.trace).length = ((calls.map Call.key).dedup).length ∧
    (summaryRegistrations w.trace).length =
      (((calls.filter fun c => c.isLatency).map Call.key).dedup).length ∧
    (∀ (i j : Nat) (ci cj : Call F), calls[i]? = some ci → calls[j]? = some cj → j ≤ i →
      cj.key = ci.key →
      (∀ (n : Nat) (c : Call F), n < j → calls[n]? = some c → c.key ≠ ci.key) →
      ∃ g : GaugeVec, g.opts = cj.opt ∧
        g ∈ gaugeRegistrations (eventsOfCall float64 reg calls j) ∧
        gaugeWrites (eventsOfCall float64 reg calls i) = [(g, ci.cluster, ci.value float64)] ∧
        w.metrics.lookup ci.key = some g) ∧
    (∀ (i j : Nat) (ci cj : Call F), calls[i]? = some ci → calls[j]? = some cj → j ≤ i →
      ci.isLatency = true → cj.isLatency = true → cj.key = ci.key →
      (∀ (n : Nat) (c : Call F), n < j → calls[n]? = some c → c.isLatency = true →
        c.key ≠ ci.key) →
      ∃ s : SummaryVec, s.opts = summaryOptsOf cj.opt ∧
        s ∈ summaryRegistrations (eventsOfCall float64 reg calls j) ∧
        summaryWrites (eventsOfCall float64 reg calls i) =
          [(s, ci.cluster, ci.value float64)] ∧
        w.summaries.lookup ci.key = some s) ∧
    (∀ (i : Nat) (ci : Call F), calls[i]? = some ci → ci.isLatency = false →
      summaryWrites (eventsOfCall float64 reg calls i) = []) := by
  have hinv := CacheInv_run float64 reg calls [] (World.init F P) w CacheInv_init hrun
  rw [List.nil_append] at hinv
  obtain ⟨hA, hB, hC, hA2, hB2, hC2⟩ := hinv
  refine ⟨?_, ?_, ?_, ?_, ?_⟩
  · rw [hC, ← dedup_length_of_keys _ _ hA hB, List.length_map]
  · rw [hC2, ← dedup_length_of_keys _ _ hA2 hB2, List.length_map]
  · intro i j ci cj hi hj hji hkey hfirst
    obtain ⟨wj, wj1, hj1, hj2, hj3, -⟩ := call_at float64 reg calls _ w hrun j cj hj
    obtain ⟨wi, wi1, hi1, hi2, hi3, hi4⟩ := call_at float64 reg calls _ w hrun i ci hi
    have hinvj := CacheInv_run float64 reg (calls.take j) [] (World.init F P) wj
      CacheInv_init hj1
    rw [List.nil_append] at hinvj
    have hnone : wj.metrics.lookup cj.key = none := by
      rw [lookup_none_iff_keys, hinvj.2.1, hkey]
      exact key_not_in_prefix calls j ci.key hfirst
    obtain ⟨⟨g, -, hgl, hgc⟩, -, -⟩ := Call_run_writes float64 reg cj wj wj1 hj2
    obtain ⟨hgo, hgr⟩ := hgc hnone
    obtain ⟨⟨g2, hw2, hl2, -⟩, -, -⟩ := Call_run_writes float64 reg ci wi wi1 hi2
    have hmono := (prefix_mono float64 reg calls (World.init F P) (j + 1) (i + 1)
      (Nat.succ_le_succ hji) wj1 wi1 hj3 hi3).1 _ _ hgl
    rw [hkey, hl2] at hmono
    have hgg : g2 = g := Option.some.inj hmono
    subst hgg
    refine ⟨g2, hgo, ?_, ?_, ?_⟩
    · rw [eventsOfCall_eq float64 reg calls j wj wj1 hj1 hj3]
      exact hgr
    · rw [eventsOfCall_eq float64 reg calls i wi wi1 hi1 hi3]
      exact hw2
    · exact (lookup_mono_run float64 reg _ wi1 w hi4).1 _ _ hl2
  · intro i j ci cj hi hj hji hlati hlatj hkey hfirst
    obtain ⟨wj, wj1, hj1, hj2, hj3, -⟩ := call_at float64 reg calls _ w hrun j cj hj
    obtain ⟨wi, wi1, hi1, hi2, hi3, hi4⟩ := call_at float64 reg calls _ w hrun i ci hi
    have hinvj := CacheInv_run float64 reg (calls.take j) [] (World.init F P) wj
      CacheInv_init hj1
    rw [List.nil_append] at hinvj
    have hnone : wj.summaries.lookup cj.key = none := by
      rw [lookup_none_iff_keys, hinvj.2.2.2.2.1, hkey]
      exact latency_key_not_in_prefix calls j ci.key hfirst
    obtain ⟨s, -, hsl, hsc⟩ := (Call_run_writes float64 reg cj wj wj1 hj2).2.2 hlatj
    obtain ⟨hso, hsr⟩ := hsc hnone
    obtain ⟨s2, hw2, hl2, -⟩ := (Call_run_writes float64 reg ci wi wi1 hi2).2.2 hlati
    have hmono := (prefix_mono float64 reg calls (World.init F P) (j + 1) (i + 1)
      (Nat.succ_le_succ hji) wj1 wi1 hj3 hi3).2 _ _ hsl
    rw [hkey, hl2] at hmono
    have hss : s2 = s := Option.some.inj hmono
    subst hss
    refine ⟨s2, hso, ?_, ?_, ?_⟩
    · rw [eventsOfCall_eq float64 reg calls j wj wj1 hj1 hj3]
      exact hsr
    · rw [eventsOfCall_eq float64 reg calls i wi wi1 hi1 hi3]
      exact hw2
    · exact (lookup_mono_run float64 reg _ wi1 w hi4).2 _ _ hl2
  · intro i ci hi hlat
    obtain ⟨wi, wi1, hi1, hi2, hi3, -⟩ := call_at float64 reg calls _ w hrun i ci hi
    rw [eventsOfCall_eq float64 reg calls i wi wi1 hi1 hi3]
    exact (Call_run_writes float64 reg ci wi wi1 hi2).2.1 hlat

theorem registry_registers_once_per_key_witness :
    runCalls (fun n => n) (fun _ _ => true) sampleCalls (World.init Int Unit) =
      some sampleCallsWorld ∧
    (gaugeRegistrations sampleCallsWorld.trace).length =
      ((sampleCalls.map Call.key).dedup).length ∧
    (summaryRegistrations sampleCallsWorld.trace).length =
      (((sampleCalls.filter fun c => c.isLatency).map Call.key).dedup).length :=
  have h := registry_registers_once_per_key (fun n => n) (fun _ _ => true) sampleCalls
    sampleCallsWorld sampleCalls_run
  ⟨sampleCalls_run, h.1, h.2.1⟩

/-! ### Incident transitions -/

theorem deliverAll_alertCalls {F P : Type} (now : Int) :
    ∀ (es : List (Event F P)) (t : Transport),
      deliverAll now t es = deliverAll now t (alertCalls es)
  | [], t => rfl
  | e :: es, t => by
    have ih := fun t1 => deliverAll_alertCalls now es t1
    cases e <;>
      simp only [deliverAll, alertCalls, List.foldl_cons, List.filter_cons, if_true,
        Bool.false_eq_true, if_false, deliver] at ih ⊢ <;>
      exact ih _

/-- The effect of one successful tick on the transport. -/
theorem tick_transport {F P : Type} (env : Env F P) (client : Client) (w : World F P)
    (now : Int) (t : Transport) (h1 : client.UpdateReplicas = none)
    (h2 : client.WatchPods env.DefaultPulsarNamespace = none) :
    monitorLoopAt env [(now, client)] (w, t) =
      ((EvaluateClusterHealth env client w).1,
        deliverAll now t (alertCalls (emitted w (EvaluateClusterHealth env client w).1))) := by
  obtain ⟨g1, g2, g3, g4, p1, p2, p3, p4, a, -, -, -, -, -, he, -⟩ :=
    EvaluateClusterHealth_success env client w h1 h2
  cases hres : EvaluateClusterHealth env client w with
  | mk w1 r =>
    rw [hres] at he
    simp only [] at he
    subst he
    simp only [monitorLoopAt, hres]
    rw [deliverAll_alertCalls]

theorem monitorLoopAt_cons {F P : Type} (env : Env F P) (x : Int × Client)
    (rest : List (Int × Client)) (st : World F P × Transport) :
    monitorLoopAt env (x :: rest) st = monitorLoopAt env rest (monitorLoopAt env [x] st) := by
  obtain ⟨now, client⟩ := x
  obtain ⟨w, t⟩ := st
  simp only [monitorLoopAt]
  cases hres : EvaluateClusterHealth env client w with
  | mk w1 r =>
    cases r <;> rfl

/-- C4: starting from the transport state in which no incident is open and no alert was
sent, four successful ticks with verdict statuses OK, TotalDown, TotalDown, OK, the two
TotalDown ticks being less than the 3-minute window apart, open the incident of the
scope exactly once and clear it exactly once; the first TotalDown tick sends the verbose
alert, the second one sends none and only refreshes the incident; at the end no
incident is open. -/
theorem four_ticks_open_once_clear_once {F P : Type} (env : Env F P) (w0 : World F P)
    (c1 c2 c3 c4 : Client) (t1 t2 t3 t4 : Int) (hconst : env.OK ≠ env.TotalDown)
    (hu1 : c1.UpdateReplicas = none) (hw1 : c1.WatchPods env.DefaultPulsarNamespace = none)
    (hu2 : c2.UpdateReplicas = none) (hw2 : c2.WatchPods env.DefaultPulsarNamespace = none)
    (hu3 : c3.UpdateReplicas = none) (hw3 : c3.WatchPods env.DefaultPulsarNamespace = none)
    (hu4 : c4.UpdateReplicas = none) (hw4 : c4.WatchPods env.DefaultPulsarNamespace = none)
    (hs1 : c1.EvalHealth.2.Status = env.OK) (hs2 : c2.EvalHealth.2.Status = env.TotalDown)
    (hs3 : c3.EvalHealth.2.Status = env.TotalDown) (hs4 : c4.EvalHealth.2.Status = env.OK)
    (hwin : t3 - t2 < 3 * Minute) :
    incidentsOpened
        (monitorLoopAt env [(t1, c1), (t2, c2), (t3, c3), (t4, c4)] (w0, Transport.init)).2.log =
      [env.cfg.Name ++ "-in-cluster"] ∧
    incidentsCleared
        (monitorLoopAt env [(t1, c1), (t2, c2), (t3, c3), (t4, c4)] (w0, Transport.init)).2.log =
      [env.cfg.Name ++ "-in-cluster"] ∧
    alertsSent
        (monitorLoopAt env [(t1, c1), (t2, c2), (t3, c3), (t4, c4)] (w0, Transport.init)).2.log =
      [env.cfg.Name ++ "-in-cluster"] ∧
    alertsSent (monitorLoopAt env [(t1, c1), (t2, c2)] (w0, Transport.init)).2.log =
      [env.cfg.Name ++ "-in-cluster"] ∧
    (monitorLoopAt env [(t1, c1), (t2, c2), (t3, c3)] (w0, Transport.init)).2.log =
      (monitorLoopAt env [(t1, c1), (t2, c2)] (w0, Transport.init)).2.log ++
        [Transition.Suppressed (env.cfg.Name ++ "-in-cluster"),
         Transition.IncidentRefreshed (env.cfg.Name ++ "-in-cluster")] ∧
    (monitorLoopAt env [(t1, c1), (t2, c2)] (w0, Transport.init)).2.openIncidents =
      [env.cfg.Name ++ "-in-cluster"] ∧
    (monitorLoopAt env [(t1, c1), (t2, c2), (t3, c3), (t4, c4)]
      (w0, Transport.init)).2.openIncidents = [] := by
  have a1 := (tick_alertCalls env c1 w0 hconst hu1 hw1).2.1 hs1
  generalize hW1 : (EvaluateClusterHealth env c1 w0).1 = W1 at a1
  have a2 := (tick_alertCalls env c2 W1 hconst hu2 hw2).1 hs2
  generalize hW2 : (EvaluateClusterHealth env c2 W1).1 = W2 at a2
  have a3 := (tick_alertCalls env c3 W2 hconst hu3 hw3).1 hs3
  generalize hW3 : (EvaluateClusterHealth env c3 W2).1 = W3 at a3
  have a4 := (tick_alertCalls env c4 W3 hconst hu4 hw4).2.1 hs4
  generalize hW4 : (EvaluateClusterHealth env c4 W3).1 = W4 at a4
  have s1 : monitorLoopAt env [(t1, c1)] (w0, Transport.init) = (W1, Transport.init) := by
    rw [tick_transport env c1 w0 t1 _ hu1 hw1, hW1, a1]
    simp [deliverAll, deliver, Transport.init]
  have s2 : ∃ T2 : Transport, monitorLoopAt env [(t2, c2)] (W1, Transport.init) = (W2, T2) ∧
      T2.openIncidents = [env.cfg.Name ++ "-in-cluster"] ∧
      T2.lastNotified = [(env.cfg.Name ++ "-in-cluster", t2)] ∧
      T2.log = [Transition.Notified (env.cfg.Name ++ "-in-cluster")
                  ("cluster " ++ (env.cfg.Name ++ "-in-cluster") ++
                    ", k8s pulsar cluster status is unhealthy, error message " ++
                    c2.EvalHealth.1),
                Transition.IncidentOpened (env.cfg.Name ++ "-in-cluster")] := by
    refine ⟨deliverAll t2 Transport.init (alertCalls (emitted W1 W2)), ?_, ?_, ?_, ?_⟩
    · rw [tick_transport env c2 W1 t2 _ hu2 hw2, hW2]
    all_goals
      rw [a2]
      simp [deliverAll, deliver, Transport.init]
  obtain ⟨T2, s2, ho2, hl2, hlog2⟩ := s2
  have s3 : monitorLoopAt env [(t3, c3)] (W2, T2) =
      (W3, { T2 with log := T2.log ++
        [Transition.Suppressed (env.cfg.Name ++ "-in-cluster"),
         Transition.IncidentRefreshed (env.cfg.Name ++ "-in-cluster")] }) := by
    rw [tick_transport env c3 W2 t3 _ hu3 hw3, hW3, a3]
    simp [deliverAll, deliver, ho2, hl2, hwin, List.lookup]
  have s4 : ∀ T : Transport, T.openIncidents = [env.cfg.Name ++ "-in-cluster"] →
      monitorLoopAt env [(t4, c4)] (W3, T) =
        (W4, { T with
          openIncidents := []
          log := T.log ++ [Transition.IncidentCleared (env.cfg.Name ++ "-in-cluster")] }) := by
    intro T ho
    rw [tick_transport env c4 W3 t4 _ hu4 hw4, hW4, a4]
    simp [deliverAll, deliver, ho]
  have r2 : monitorLoopAt env [(t1, c1), (t2, c2)] (w0, Transport.init) = (W2, T2) := by
    rw [monitorLoopAt_cons, s1, s2]
  have r3 : monitorLoopAt env [(t1, c1), (t2, c2), (t3, c3)] (w0, Transport.init) =
      (W3, { T2 with log := T2.log ++
        [Transition.Suppressed (env.cfg.Name ++ "-in-cluster"),
         Transition.IncidentRefreshed (env.cfg.Name ++ "-in-cluster")] }) := by
    rw [monitorLoopAt_cons, s1, monitorLoopAt_cons, s2, s3]
  have r4 : monitorLoopAt env [(t1, c1), (t2, c2), (t3, c3), (t4, c4)] (w0, Transport.init) =
      (W4, { T2 with
        openIncidents := []
        log := T2.log ++
          [Transition.Suppressed (env.cfg.Name ++ "-in-cluster"),
           Transition.IncidentRefreshed (env.cfg.Name ++ "-in-cluster")] ++
          [Transition.IncidentCleared (env.cfg.Name ++ "-in-cluster")] }) := by
    rw [monitorLoopAt_cons, s1, monitorLoopAt_cons, s2, monitorLoopAt_cons, s3]
    exact s4 { T2 with log := T2.log ++
      [Transition.Suppressed (env.cfg.Name ++ "-in-cluster"),
       Transition.IncidentRefreshed (env.cfg.Name ++ "-in-cluster")] } ho2
  rw [r2, r3, r4]
  simp [incidentsOpened, incidentsCleared, alertsSent, hlog2, ho2]

theorem four_ticks_open_once_clear_once_witness :
    sampleEnv.OK ≠ sampleEnv.TotalDown ∧
    (2 * clusterMonInterval - clusterMonInterval < 3 * Minute) ∧
    incidentsOpened (monitorLoopAt sampleEnv sampleTicks
      (World.init Int Unit, Transport.init)).2.log = ["east-in-cluster"] ∧
    incidentsCleared (monitorLoopAt sampleEnv sampleTicks
      (World.init Int Unit, Transport.init)).2.log = ["east-in-cluster"] ∧
    alertsSent (monitorLoopAt sampleEnv sampleTicks
      (World.init Int Unit, Transport.init)).2.log = ["east-in-cluster"] :=
  have h := four_ticks_open_once_clear_once sampleEnv (World.init Int Unit)
    (sampleClient 1) (sampleClient 0) (sampleClient 0) (sampleClient 1)
    0 clusterMonInterval (2 * clusterMonInterval) (3 * clusterMonInterval)
    (by decide) rfl rfl rfl rfl rfl rfl rfl rfl rfl rfl rfl rfl (by decide)
  ⟨by decide, by decide, h.1, h.2.1, h.2.2.1⟩

end PulsarMonitor
